import Mathlib

/-!
# Verification of the red-converter transformation engine

A shallow embedding of the text-transformation registry
(`src/lib/transformations.ts`, `src/lib/new-transformations.ts`) and the
pipeline execution / risk-analysis / detection engine (`src/lib/pipeline.ts`),
together with proofs about the behaviour the specification claims.

Modelling conventions:
* JavaScript strings are modelled by Lean `String` (sequences of Unicode
  scalar values).  Where JavaScript operates on UTF-16 code units
  (`.length`, `charCodeAt`, `split('')`) we model the unit count exactly
  (`jsLength`, `jsUnits`); lone surrogates themselves cannot be represented,
  which only matters for inputs containing astral code points at odd
  boundaries — never the case in the statements proved here.
* `TextEncoder` / `TextDecoder` are modelled by an explicit UTF-8
  encoder/decoder over byte lists (`utf8Encode`, `utf8Decode`); the decoder
  follows the WHATWG replacement behaviour (U+FFFD on errors), and
  `decodeURIComponent`-style strict decoding is `utf8DecodeStrict`.
* Numbers: JavaScript 32-bit bitwise semantics are modelled over `Int`/`Nat`
  with explicit reductions mod 2^32 (`toUint32`, `toInt32`); `BigInt`
  arithmetic is exact `Nat` arithmetic with explicit masks.
* A function that can throw is modelled as returning `Except String String`;
  the carried message is the thrown `Error`'s message.
* All non-ASCII characters of `transformations.ts` are transcribed exactly
  as the file stores them (the file holds mojibake sequences for the emoji
  and box-drawing literals; they are written below with `\u` escapes so the
  transcription is auditable).  `pipeline.ts` is clean UTF-8 and its strings
  are transcribed verbatim.
-/

set_option maxHeartbeats 1000000
set_option maxRecDepth 4000

namespace RedConverter

/-! ## JavaScript string/number primitives -/

/-- Number of UTF-16 code units a scalar value occupies. -/
def charUnitLen (c : Char) : Nat := if c.toNat ≥ 0x10000 then 2 else 1

/-- JavaScript `String.prototype.length` (UTF-16 code units). -/
def jsLength (s : String) : Nat := (s.data.map charUnitLen).foldr (· + ·) 0

/-- The UTF-16 code units of a scalar value (surrogate pair for astral). -/
def charUnits (c : Char) : List Nat :=
  let n := c.toNat
  if n ≥ 0x10000 then
    [0xD800 + (n - 0x10000) / 0x400, 0xDC00 + (n - 0x10000) % 0x400]
  else [n]

/-- The UTF-16 code units of a string (`charCodeAt` sequence). -/
def jsUnits (s : String) : List Nat := (s.data.map charUnits).foldr (· ++ ·) []

/-- JavaScript `\s` (whitespace class used by the source's regexes). -/
def isJsSpace (c : Char) : Bool :=
  c = ' ' ∨ c = '\t' ∨ c = '\n' ∨ c.toNat = 0x0B ∨ c.toNat = 0x0C ∨
  c.toNat = 0x0D ∨ c.toNat = 0xA0 ∨ c.toNat = 0x1680 ∨
  (0x2000 ≤ c.toNat ∧ c.toNat ≤ 0x200A) ∨ c.toNat = 0x2028 ∨
  c.toNat = 0x2029 ∨ c.toNat = 0x202F ∨ c.toNat = 0x205F ∨
  c.toNat = 0x3000 ∨ c.toNat = 0xFEFF

def isAsciiDigit (c : Char) : Bool := '0' ≤ c ∧ c ≤ '9'
def isAsciiUpper (c : Char) : Bool := 'A' ≤ c ∧ c ≤ 'Z'
def isAsciiLower (c : Char) : Bool := 'a' ≤ c ∧ c ≤ 'z'
def isAsciiLetter (c : Char) : Bool := isAsciiUpper c ∨ isAsciiLower c
def isHexDigit (c : Char) : Bool :=
  isAsciiDigit c ∨ ('a' ≤ c ∧ c ≤ 'f') ∨ ('A' ≤ c ∧ c ≤ 'F')

def hexDigitVal (c : Char) : Nat :=
  if isAsciiDigit c then c.toNat - '0'.toNat
  else if 'a' ≤ c ∧ c ≤ 'f' then c.toNat - 'a'.toNat + 10
  else if 'A' ≤ c ∧ c ≤ 'F' then c.toNat - 'A'.toNat + 10
  else 0

/-- `String.toUpperCase` restricted to ASCII (all uses below are on ASCII
letters; non-ASCII case mapping is not exercised by any statement). -/
def jsToUpperChar (c : Char) : Char :=
  if isAsciiLower c then Char.ofNat (c.toNat - 32) else c

def jsToUpper (s : String) : String := ⟨s.data.map jsToUpperChar⟩

/-- `String.toLowerCase` restricted to ASCII. -/
def jsToLowerChar (c : Char) : Char :=
  if isAsciiUpper c then Char.ofNat (c.toNat + 32) else c

def jsToLower (s : String) : String := ⟨s.data.map jsToLowerChar⟩

/-- JavaScript `ToUint32` on an exact integer. -/
def toUint32 (x : Int) : Nat := (x % 4294967296).toNat

/-- JavaScript `ToInt32` on an exact integer. -/
def toInt32 (x : Int) : Int :=
  let u := toUint32 x
  if u < 2147483648 then (u : Int) else (u : Int) - 4294967296

/-- JavaScript `ToUint16` (used by `String.fromCharCode`). -/
def toUint16 (x : Int) : Nat := (x % 65536).toNat

/-- `x << n` on 32-bit two's-complement values, as an `Int`. -/
def jsShl32 (x : Int) (n : Nat) : Int := toInt32 (toInt32 x * (2 ^ n : Nat))

/-- `x >> n` (sign-propagating right shift), as an `Int`. -/
def jsShr32 (x : Int) (n : Nat) : Int := Int.fdiv (toInt32 x) ((2 ^ n : Nat))

/-- `x & y` (32-bit bitwise and), as an `Int`. -/
def jsAnd32 (x y : Int) : Int := toInt32 (Int.ofNat ((toUint32 x) &&& (toUint32 y)))

/-- `x | y` (32-bit bitwise or), as an `Int`. -/
def jsOr32 (x y : Int) : Int := toInt32 (Int.ofNat ((toUint32 x) ||| (toUint32 y)))

/-- `x ^ y` (32-bit bitwise xor), as an `Int`. -/
def jsXor32 (x y : Int) : Int := toInt32 (Int.ofNat ((toUint32 x) ^^^ (toUint32 y)))

/-- `~x` (32-bit bitwise not), as an `Int`. -/
def jsNot32 (x : Int) : Int := toInt32 (Int.ofNat ((toUint32 x) ^^^ 0xFFFFFFFF))

/-- Truncating (toward-zero) remainder, JavaScript `%` on exact integers. -/
def jsRem (a b : Int) : Int := Int.tmod a b

/-- Truncating (toward-zero) quotient on exact integers
(`Math.floor` composed with `/` is only used on non-negative operands). -/
def jsQuot (a b : Int) : Int := Int.tdiv a b

/-- `String.fromCharCode` for a single value: `ToUint16`, then the scalar
value if representable.  A resulting lone surrogate cannot be represented
as a Lean `Char` and is mapped to U+FFFD (never reached in the statements
proved here). -/
def fromCharCode (x : Int) : Char :=
  let u := toUint16 x
  if 0xD800 ≤ u ∧ u ≤ 0xDFFF then Char.ofNat 0xFFFD else Char.ofNat u

/-- Digits of `n` in base `base ≥ 2`, most significant first (empty for 0).
Fuel-driven so that it reduces in the kernel; fuel `n` always suffices. -/
def natDigitsGo (base : Nat) (digit : Nat → Char) : Nat → Nat → List Char
  | 0, _ => []
  | _, 0 => []
  | fuel + 1, n => natDigitsGo base digit fuel (n / base) ++ [digit (n % base)]

def decDigit (d : Nat) : Char := Char.ofNat ('0'.toNat + d)

def hexDigit (d : Nat) : Char :=
  if d < 10 then Char.ofNat ('0'.toNat + d) else Char.ofNat ('a'.toNat + d - 10)

/-- `Number.prototype.toString()` for a natural number. -/
def natToString (n : Nat) : String :=
  if n = 0 then "0" else ⟨natDigitsGo 10 decDigit n n⟩

/-- `toString(16)` (lower-case hex) for a natural number. -/
def natToHex (n : Nat) : String :=
  if n = 0 then "0" else ⟨natDigitsGo 16 hexDigit n n⟩

/-- `String.prototype.padStart(width, pad)` for a one-character pad. -/
def padStart (s : String) (width : Nat) (pad : Char) : String :=
  ⟨List.replicate (width - s.data.length) pad ++ s.data⟩

/-- A byte rendered as two lower-case hex digits (`toString(16).padStart(2,'0')`). -/
def byteToHex (b : Nat) : String := padStart (natToHex b) 2 '0'

/-! ## UTF-8 (TextEncoder / TextDecoder) -/

/-- UTF-8 bytes of one scalar value. -/
def utf8EncodeChar (c : Char) : List Nat :=
  let n := c.toNat
  if n < 0x80 then [n]
  else if n < 0x800 then [0xC0 + n / 64, 0x80 + n % 64]
  else if n < 0x10000 then [0xE0 + n / 4096, 0x80 + n / 64 % 64, 0x80 + n % 64]
  else [0xF0 + n / 262144, 0x80 + n / 4096 % 64, 0x80 + n / 64 % 64, 0x80 + n % 64]

/-- `new TextEncoder().encode(s)`: the UTF-8 bytes of `s`. -/
def utf8Encode (s : String) : List Nat := (s.data.map utf8EncodeChar).foldr (· ++ ·) []

def isUtf8Cont (b : Nat) : Bool := 0x80 ≤ b ∧ b < 0xC0

/-- One step of WHATWG UTF-8 decoding: decode the first scalar value (or
report an error), returning it with the rest of the byte stream. -/
def utf8DecodeStep : List Nat → Option Char × List Nat
  | [] => (none, [])
  | b :: rest =>
    if b < 0x80 then (some (Char.ofNat b), rest)
    else if b < 0xC2 then (none, rest)
    else if b < 0xE0 then
      match rest with
      | b2 :: rest2 =>
        if isUtf8Cont b2 then (some (Char.ofNat ((b - 0xC0) * 64 + (b2 - 0x80))), rest2)
        else (none, rest)
      | [] => (none, [])
    else if b < 0xF0 then
      match rest with
      | b2 :: b3 :: rest3 =>
        if isUtf8Cont b2 ∧ isUtf8Cont b3 then
          let n := (b - 0xE0) * 4096 + (b2 - 0x80) * 64 + (b3 - 0x80)
          if n < 0x800 ∨ (0xD800 ≤ n ∧ n ≤ 0xDFFF) then (none, rest)
          else (some (Char.ofNat n), rest3)
        else (none, rest)
      | _ => (none, rest.drop rest.length)
    else if b < 0xF5 then
      match rest with
      | b2 :: b3 :: b4 :: rest4 =>
        if isUtf8Cont b2 ∧ isUtf8Cont b3 ∧ isUtf8Cont b4 then
          let n := (b - 0xF0) * 262144 + (b2 - 0x80) * 4096 + (b3 - 0x80) * 64 + (b4 - 0x80)
          if n < 0x10000 ∨ n > 0x10FFFF then (none, rest)
          else (some (Char.ofNat n), rest4)
        else (none, rest)
      | _ => (none, rest.drop rest.length)
    else (none, rest)

/-- Fuel-driven WHATWG UTF-8 decode loop; errors yield U+FFFD.
Each step consumes at least the first byte, so fuel `bs.length` decodes
the whole stream. -/
def utf8DecodeGo : Nat → List Nat → List Char
  | 0, _ => []
  | _, [] => []
  | fuel + 1, b :: rest =>
    match utf8DecodeStep (b :: rest) with
    | (some c, rest2) => c :: utf8DecodeGo fuel rest2
    | (none, rest2) => Char.ofNat 0xFFFD :: utf8DecodeGo fuel rest2

/-- `new TextDecoder().decode(bytes)` (replacement on malformed input). -/
def utf8Decode (bs : List Nat) : String := ⟨utf8DecodeGo bs.length bs⟩

/-- Strict UTF-8 decode loop (`none` on malformed input). -/
def utf8DecodeStrictGo : Nat → List Nat → Option (List Char)
  | 0, _ => some []
  | _, [] => some []
  | fuel + 1, b :: rest =>
    match utf8DecodeStep (b :: rest) with
    | (some c, rest2) => (utf8DecodeStrictGo fuel rest2).map (c :: ·)
    | (none, _) => none

/-- The UTF-8 decoding performed by `decodeURIComponent(escape(·))`:
strict, throwing (here: `none`) on malformed input. -/
def utf8DecodeStrict (bs : List Nat) : Option String :=
  (utf8DecodeStrictGo bs.length bs).map (⟨·⟩)

/-! ## Base64 (`btoa` / `atob`) -/

def b64Alphabet : List Char :=
  "ABCDEFGHIJKLMNOPQRSTUVWXYZabcdefghijklmnopqrstuvwxyz0123456789+/".data

def b64Chr (n : Nat) : Char := b64Alphabet.getD n ' '

/-- Base64 encoding of a byte list, with `=` padding. -/
def b64EncodeBytes : List Nat → List Char
  | [] => []
  | [a] => [b64Chr (a / 4), b64Chr (a % 4 * 16), '=', '=']
  | [a, b] => [b64Chr (a / 4), b64Chr (a % 4 * 16 + b / 16), b64Chr (b % 16 * 4), '=']
  | a :: b :: c :: rest =>
    b64Chr (a / 4) :: b64Chr (a % 4 * 16 + b / 16) ::
      b64Chr (b % 16 * 4 + c / 64) :: b64Chr (c % 64) :: b64EncodeBytes rest

/-- Index of a character in the Base64 alphabet. -/
def b64Index (c : Char) : Option Nat := b64Alphabet.indexOf? c

/-- Decode a list of sextets (whose length is ≢ 1 mod 4) to bytes. -/
def b64DecodeSextets : List Nat → List Nat
  | a :: b :: c :: d :: rest =>
    (a * 4 + b / 16) :: (b % 16 * 16 + c / 4) :: (c % 4 * 64 + d) :: b64DecodeSextets rest
  | [a, b] => [a * 4 + b / 16]
  | [a, b, c] => [a * 4 + b / 16, b % 16 * 16 + c / 4]
  | _ => []

/-- ASCII whitespace removed by forgiving-base64 (`atob`). -/
def isB64Ws (c : Char) : Bool :=
  c = ' ' ∨ c = '\t' ∨ c = '\n' ∨ c.toNat = 0x0C ∨ c.toNat = 0x0D

/-- `atob`: forgiving-base64 decode to a byte list, or a thrown
`InvalidCharacterError`. -/
def atob (s : String) : Except String (List Nat) :=
  let data := s.data.filter (fun c => ¬ isB64Ws c)
  let data :=
    if data.length % 4 = 0 then
      if data.reverse.take 2 = ['=', '='] then (data.reverse.drop 2).reverse
      else if data.reverse.take 1 = ['='] then (data.reverse.drop 1).reverse
      else data
    else data
  if data.length % 4 = 1 then .error "InvalidCharacterError"
  else
    match (data.map b64Index).traverse id with
    | none => .error "InvalidCharacterError"
    | some sextets => .ok (b64DecodeSextets sextets)

-- sanity checks (module-internal)
example : utf8Encode "hi" = [104, 105] := by decide
example : ⟨b64EncodeBytes (utf8Encode "hi")⟩ = "aGk=" := by decide
example : atob "aGk=" = .ok [104, 105] := rfl
example : utf8Decode [35] = "#" := by decide
example : jsLength "ab" = 2 := by decide

/-- `base64Encode` (`transformations.ts`):
`btoa(unescape(encodeURIComponent(input)))`, i.e. Base64 over the UTF-8
bytes. -/
def base64Encode (input : String) : String := ⟨b64EncodeBytes (utf8Encode input)⟩

/-- `base64Decode` (`transformations.ts`):
`decodeURIComponent(escape(atob(input)))` — forgiving-base64 to bytes, then
a strict UTF-8 decode; either stage may throw. -/
def base64Decode (input : String) : Except String String := do
  let bytes ← atob input
  match utf8DecodeStrict bytes with
  | some s => .ok s
  | none => .error "URI malformed"

/-! ## Options (`Record<string, unknown>` arguments) -/

/-- A value in a transformation's options map. -/
inductive OptVal
  | num (n : Int)
  | str (s : String)
  deriving DecidableEq

/-- `Record<string, unknown>` options map. -/
abbrev Options := List (String × OptVal)

def getOptNum (o : Option Options) (k : String) : Option Int :=
  match o with
  | none => none
  | some l =>
    (l.find? (fun p => p.1 == k)).bind fun p =>
      match p.2 with
      | .num n => some n
      | _ => none

def getOptStr (o : Option Options) (k : String) : Option String :=
  match o with
  | none => none
  | some l =>
    (l.find? (fun p => p.1 == k)).bind fun p =>
      match p.2 with
      | .str s => some s
      | _ => none

/-- `options?.k ?? d` for numbers. -/
def optNumD (o : Option Options) (k : String) (d : Int) : Int :=
  (getOptNum o k).getD d

/-- `options?.k || d` for numbers (`0` is falsy). -/
def optNumOr (o : Option Options) (k : String) (d : Int) : Int :=
  match getOptNum o k with
  | some n => if n = 0 then d else n
  | none => d

/-- `options?.k || d` for strings (`''` is falsy). -/
def optStrOr (o : Option Options) (k : String) (d : String) : String :=
  match getOptStr o k with
  | some s => if s = "" then d else s
  | none => d

/-- The uniform shape of a registry operation: it receives the current text
and the step's options and either returns text or throws. -/
abbrev Op := String → Option Options → Except String String

/-! ## Base32 (RFC 4648), `transformations.ts` -/

def BASE32_ALPHABET : List Char := "ABCDEFGHIJKLMNOPQRSTUVWXYZ234567".data

def b32Chr (n : Nat) : Char := BASE32_ALPHABET.getD n ' '

/-- The inner `while (bitsLeft >= 5)` loop of `base32Encode`
(fuel-driven; fuel `bits` suffices since each emission consumes 5 bits). -/
def b32EmitGo (buffer : Nat) : Nat → Nat → List Char × Nat
  | 0, bits => ([], bits)
  | fuel + 1, bits =>
    if bits ≥ 5 then
      let bits2 := bits - 5
      let out := b32EmitGo buffer fuel bits2
      (b32Chr ((buffer >>> bits2) &&& 0x1f) :: out.1, out.2)
    else ([], bits)

def b32Emit (buffer bits : Nat) : List Char × Nat := b32EmitGo buffer bits bits

/-- The byte loop of `base32Encode`, carrying `buffer` and `bitsLeft`.
`buffer` is kept reduced mod 2^32 (JavaScript `<<`/`|` are 32-bit). -/
def base32EncodeGo : List Nat → Nat → Nat → List Char
  | [], buffer, bits =>
    if bits > 0 then [b32Chr ((buffer <<< (5 - bits)) &&& 0x1f)] else []
  | byte :: rest, buffer, bits =>
    let buffer2 := ((buffer <<< 8) ||| byte) &&& 0xFFFFFFFF
    let em := b32Emit buffer2 (bits + 8)
    em.1 ++ base32EncodeGo rest buffer2 em.2

/-- `base32Encode` (`transformations.ts`): 5-bit groups over the UTF-8
bytes, `=`-padded to a multiple of 8 characters. -/
def base32Encode (input : String) : String :=
  let result := base32EncodeGo (utf8Encode input) 0 0
  ⟨result ++ List.replicate ((8 - result.length % 8) % 8) '='⟩

/-- The character loop of `base32Decode`; unknown characters are skipped. -/
def base32DecodeGo : List Char → Nat → Nat → List Nat
  | [], _, _ => []
  | c :: rest, buffer, bits =>
    match BASE32_ALPHABET.indexOf? c with
    | none => base32DecodeGo rest buffer bits
    | some v =>
      let buffer2 := ((buffer <<< 5) ||| v) &&& 0xFFFFFFFF
      let bits2 := bits + 5
      if bits2 ≥ 8 then
        ((buffer2 >>> (bits2 - 8)) &&& 0xFF) :: base32DecodeGo rest buffer2 (bits2 - 8)
      else
        base32DecodeGo rest buffer2 bits2

/-- `input.replace(/=+$/, '')`: strip trailing `=` signs. -/
def stripTrailingEq (cs : List Char) : List Char :=
  (cs.reverse.dropWhile (· = '=')).reverse

/-- `base32Decode` (`transformations.ts`). -/
def base32Decode (input : String) : String :=
  let cleaned := (stripTrailingEq input.data).map jsToUpperChar
  utf8Decode (base32DecodeGo cleaned 0 0)

/-! ## Base58 (Bitcoin alphabet), `transformations.ts` -/

def BASE58_ALPHABET : List Char :=
  "123456789ABCDEFGHJKLMNPQRSTUVWXYZabcdefghijkmnopqrstuvwxyz".data

/-- Base-58 digits of a `BigInt` (most significant first; empty for 0). -/
def b58Digits (n : Nat) : List Char :=
  natDigitsGo 58 (fun d => BASE58_ALPHABET.getD d ' ') n n

/-- `base58Encode` (`transformations.ts`). -/
def base58Encode (input : String) : String :=
  let bytes := utf8Encode input
  let num := bytes.foldl (fun n b => n * 256 + b) 0
  let result := (bytes.takeWhile (· = 0)).map (fun _ => '1') ++ b58Digits num
  if result = [] then "1" else ⟨result⟩

/-- Base-256 digits of a `BigInt` (most significant first; empty for 0);
fuel-driven, fuel `n` suffices. -/
def b256DigitsGo : Nat → Nat → List Nat
  | 0, _ => []
  | _, 0 => []
  | fuel + 1, n => b256DigitsGo fuel (n / 256) ++ [n % 256]

def b256Digits (n : Nat) : List Nat := b256DigitsGo n n

/-- `base58Decode` (`transformations.ts`); throws on a character outside
the alphabet. -/
def base58Decode (input : String) : Except String String :=
  match (input.data.map (BASE58_ALPHABET.indexOf? ·)).traverse id with
  | none => .error "Invalid Base58 character"
  | some vals =>
    let num := vals.foldl (fun n v => n * 58 + v) 0
    let bytes := b256Digits num
    let zeros := (input.data.takeWhile (· = '1')).map (fun _ => 0)
    .ok (utf8Decode (zeros ++ bytes))

/-! ## Base85 / ASCII85, `transformations.ts` -/

/-- The inner digit loop of `base85Encode`: the five values
`String.fromCharCode((value % 85) + 33)` computed while dividing by 85
(JavaScript `%` is truncating, `Math.floor(value/85)` is flooring; `value`
may be a negative 32-bit quantity for short trailing groups). -/
def b85Computed : Nat → Int → List Char
  | 0, _ => []
  | k + 1, v => fromCharCode (jsRem v 85 + 33) :: b85Computed k (Int.fdiv v 85)

/-- The 4-byte-group loop of `base85Encode` (fuel-driven, one unit of fuel
per group; fuel = list length always suffices). -/
def base85EncodeGo : Nat → List Nat → List Char
  | 0, _ => []
  | _, [] => []
  | fuel + 1, b :: rest =>
    let group := b :: rest.take 3
    let count := group.length
    let value := group.foldl (fun v byte => jsOr32 (jsShl32 v 8) byte) 0
    let value := if count < 4 then jsShl32 value ((4 - count) * 8) else value
    (if value = 0 ∧ count = 4 then ['z']
     else ((b85Computed 5 value).reverse).take (count + 1)) ++
      base85EncodeGo fuel (rest.drop 3)

/-- `base85Encode` (`transformations.ts`): `<~ ... ~>` delimited ASCII85. -/
def base85Encode (input : String) : String :=
  let bytes := utf8Encode input
  ⟨'<' :: '~' :: base85EncodeGo bytes.length bytes ++ ['~', '>']⟩

/-- Byte extraction of `base85Decode`: `(value >> (j*8)) & 0xff` for
`j = 3, 2, …, 4－count`. -/
def b85GroupBytes (value : Int) (count : Nat) : List Nat :=
  (List.range count).map fun k => (jsAnd32 (jsShr32 value ((3 - k) * 8)) 255).toNat

/-- The 5-character-chunk loop of `base85Decode` (fuel-driven). -/
def base85DecodeGo : Nat → List Char → List Nat
  | 0, _ => []
  | _, [] => []
  | fuel + 1, c :: rest =>
    let chunk := c :: rest.take 4
    let chunk := chunk ++ List.replicate (5 - chunk.length) 'u'
    let value := chunk.foldl (fun v ch => v * 85 + ((ch.toNat : Int) - 33)) 0
    let count := min (1 + rest.length) 5 - 1
    b85GroupBytes value count ++ base85DecodeGo fuel (rest.drop 4)

/-- `base85Decode` (`transformations.ts`). -/
def base85Decode (input : String) : String :=
  let data := input.data
  let data := match data with
    | '<' :: '~' :: rest => rest
    | _ => data
  let data := match data.reverse with
    | '>' :: '~' :: rest => rest.reverse
    | _ => data
  let data := data.filter (fun c => ¬ isJsSpace c)
  let data := data.flatMap (fun c => if c = 'z' then ['!', '!', '!', '!', '!'] else [c])
  utf8Decode (base85DecodeGo data.length data)

/-! ## Hex and binary, `transformations.ts` -/

/-- `hexEncode`: lower-case hex of the UTF-8 bytes. -/
def hexEncode (input : String) : String :=
  String.join ((utf8Encode input).map byteToHex)

/-- JavaScript line terminators (not matched by `.` in a regex). -/
def isLineTerm (c : Char) : Bool :=
  c = '\n' ∨ c.toNat = 0x0D ∨ c.toNat = 0x2028 ∨ c.toNat = 0x2029

/-- `input.match(/.{1,2}/g)`: successive chunks of one or two
non-line-terminator characters (fuel-driven). -/
def dotChunksGo : Nat → List Char → List (List Char)
  | 0, _ => []
  | _, [] => []
  | fuel + 1, c :: rest =>
    if isLineTerm c then dotChunksGo fuel rest
    else
      match rest with
      | [] => [[c]]
      | c2 :: rest2 =>
        if isLineTerm c2 then [c] :: dotChunksGo fuel rest
        else [c, c2] :: dotChunksGo fuel rest2

def dotChunks (cs : List Char) : List (List Char) := dotChunksGo cs.length cs

/-- `parseInt(s, 16)`: `none` models `NaN`. -/
def jsParseIntHex (cs : List Char) : Option Int :=
  let core := fun (l : List Char) =>
    let l := match l with
      | '0' :: x :: rest => if x = 'x' ∨ x = 'X' then rest else '0' :: x :: rest
      | other => other
    let ds := l.takeWhile isHexDigit
    if ds = [] then none
    else some ((ds.foldl (fun n c => n * 16 + hexDigitVal c) 0 : Nat) : Int)
  match cs.dropWhile isJsSpace with
  | '-' :: rest => (core rest).map (- ·)
  | '+' :: rest => core rest
  | rest => core rest

/-- JavaScript `ToUint8` (storing into a `Uint8Array`; `NaN` becomes 0). -/
def toUint8OrZero (v : Option Int) : Nat :=
  match v with
  | none => 0
  | some i => (i % 256).toNat

/-- `hexDecode` (`transformations.ts`). -/
def hexDecode (input : String) : String :=
  utf8Decode ((dotChunks input.data).map (fun ch => toUint8OrZero (jsParseIntHex ch)))

/-- `parseInt(s, 2)`: `none` models `NaN`. -/
def jsParseIntBin (cs : List Char) : Option Int :=
  let core := fun (l : List Char) =>
    let ds := l.takeWhile (fun c => c = '0' ∨ c = '1')
    if ds = [] then none
    else some ((ds.foldl (fun n c => n * 2 + (if c = '1' then 1 else 0)) 0 : Nat) : Int)
  match cs.dropWhile isJsSpace with
  | '-' :: rest => (core rest).map (- ·)
  | '+' :: rest => core rest
  | rest => core rest

/-- Bits of a byte, most significant first, `width` bits. -/
def bitsOfByte (b : Nat) (width : Nat) : List Char :=
  (List.range width).map fun k => if b / 2 ^ (width - 1 - k) % 2 = 1 then '1' else '0'

/-- `binaryEncode` (`transformations.ts`): space-separated `bits`-bit
groups (`options?.bits === 7 ? 7 : 8`) of the masked UTF-8 bytes. -/
def binaryEncode (input : String) (options : Option Options) : String :=
  let bits := if getOptNum options "bits" = some 7 then 7 else 8
  String.intercalate " "
    ((utf8Encode input).map fun b => ⟨bitsOfByte (b % 2 ^ bits) bits⟩)

/-- Worker for `input.split(/\s+/)` (fuel-driven). -/
def splitWsRunsGo : Nat → List Char → List Char → List (List Char)
  | 0, _, acc => [acc.reverse]
  | _, [], acc => [acc.reverse]
  | fuel + 1, c :: rest, acc =>
    if isJsSpace c then
      acc.reverse :: splitWsRunsGo fuel (rest.dropWhile isJsSpace) []
    else splitWsRunsGo fuel rest (c :: acc)

/-- `input.split(/\s+/)` — split on runs of JavaScript whitespace (a
leading run yields a leading empty piece, as in JavaScript). -/
def splitWsRuns (cs : List Char) : List (List Char) :=
  splitWsRunsGo cs.length cs []

/-- `binaryDecode` (`transformations.ts`). -/
def binaryDecode (input : String) : String :=
  let pieces := (splitWsRuns input.data).filter (· ≠ [])
  utf8Decode (pieces.map (fun p => toUint8OrZero (jsParseIntBin p)))

/-! ## Web encodings, `transformations.ts` -/

def hexDigitUpper (d : Nat) : Char :=
  if d < 10 then Char.ofNat ('0'.toNat + d) else Char.ofNat ('A'.toNat + d - 10)

/-- Characters `encodeURIComponent` leaves unescaped. -/
def uriUnreserved (c : Char) : Bool :=
  isAsciiLetter c ∨ isAsciiDigit c ∨ c = '-' ∨ c = '_' ∨ c = '.' ∨ c = '!' ∨
  c = '~' ∨ c = '*' ∨ c = Char.ofNat 39 ∨ c = '(' ∨ c = ')'

/-- `urlEncode` = `encodeURIComponent`. -/
def urlEncode (input : String) : String :=
  ⟨input.data.flatMap fun c =>
    if uriUnreserved c then [c]
    else (utf8EncodeChar c).flatMap fun b => ['%', hexDigitUpper (b / 16), hexDigitUpper (b % 16)]⟩

/-- Parse a `%XX` escape at the head of the character list. -/
def pctByteAt : List Char → Option (Nat × List Char)
  | '%' :: h1 :: h2 :: rest =>
    if isHexDigit h1 ∧ isHexDigit h2 then some (hexDigitVal h1 * 16 + hexDigitVal h2, rest)
    else none
  | _ => none

/-- Continuation-byte count expected after a UTF-8 lead byte (`none` for an
invalid lead). -/
def leadByteConts (b : Nat) : Option Nat :=
  if b < 0x80 then some 0
  else if 0xC0 ≤ b ∧ b < 0xE0 then some 1
  else if 0xE0 ≤ b ∧ b < 0xF0 then some 2
  else if 0xF0 ≤ b ∧ b < 0xF8 then some 3
  else none

/-- Collect `k` consecutive `%XX` escapes. -/
def collectPct : Nat → List Char → Option (List Nat × List Char)
  | 0, rest => some ([], rest)
  | k + 1, cs =>
    match pctByteAt cs with
    | some (b, rest) => (collectPct k rest).map fun p => (b :: p.1, p.2)
    | none => none

/-- Scanner for `decodeURIComponent` (`none` models a thrown `URIError`). -/
def urlDecodeGo : Nat → List Char → Option (List Char)
  | 0, _ => some []
  | _, [] => some []
  | fuel + 1, c :: cs =>
    if c = '%' then
      match pctByteAt (c :: cs) with
      | none => none
      | some (b, rest) =>
        if b < 0x80 then (urlDecodeGo fuel rest).map (Char.ofNat b :: ·)
        else
          match leadByteConts b with
          | none => none
          | some k =>
            match collectPct k rest with
            | none => none
            | some (bs, rest2) =>
              match utf8DecodeStep (b :: bs) with
              | (some ch, []) => (urlDecodeGo fuel rest2).map (ch :: ·)
              | _ => none
    else (urlDecodeGo fuel cs).map (c :: ·)

/-- `urlDecode` = `decodeURIComponent` (throws on malformed input). -/
def urlDecode (input : String) : Except String String :=
  match urlDecodeGo input.data.length input.data with
  | some cs => .ok ⟨cs⟩
  | none => .error "URI malformed"

/-- `htmlEntityEncode`: numeric references for code units above 127 and for
the five special characters. -/
def htmlEntityEncode (input : String) : String :=
  ⟨(jsUnits input).flatMap fun code =>
    if code > 127 ∨ code = '<'.toNat ∨ code = '>'.toNat ∨ code = '&'.toNat ∨
        code = '"'.toNat ∨ code = 39 then
      '&' :: '#' :: (natToString code).data ++ [';']
    else [Char.ofNat code]⟩

/-- One global-replace pass of `/&#(\d+);/g` →
`String.fromCharCode(parseInt(code))`. -/
def replaceDecEnt : Nat → List Char → List Char
  | 0, cs => cs
  | _, [] => []
  | fuel + 1, '&' :: '#' :: rest =>
    let ds := rest.takeWhile isAsciiDigit
    let rest2 := rest.drop ds.length
    if ds ≠ [] ∧ rest2.head? = some ';' then
      fromCharCode ((ds.foldl (fun n c => n * 10 + (c.toNat - '0'.toNat)) 0 : Nat) : Int) ::
        replaceDecEnt fuel rest2.tail
    else '&' :: replaceDecEnt fuel ('#' :: rest)
  | fuel + 1, c :: rest => c :: replaceDecEnt fuel rest

/-- One global-replace pass of `/&#x([0-9a-fA-F]+);/g`. -/
def replaceHexEnt : Nat → List Char → List Char
  | 0, cs => cs
  | _, [] => []
  | fuel + 1, '&' :: '#' :: 'x' :: rest =>
    let ds := rest.takeWhile isHexDigit
    let rest2 := rest.drop ds.length
    if ds ≠ [] ∧ rest2.head? = some ';' then
      fromCharCode ((ds.foldl (fun n c => n * 16 + hexDigitVal c) 0 : Nat) : Int) ::
        replaceHexEnt fuel rest2.tail
    else '&' :: replaceHexEnt fuel ('#' :: 'x' :: rest)
  | fuel + 1, c :: rest => c :: replaceHexEnt fuel rest

/-- `s.replace(pat, r)` for a literal non-empty pattern, all occurrences
(also `s.split(pat).join(r)`). -/
def replaceAllLit : Nat → List Char → List Char → List Char → List Char
  | 0, cs, _, _ => cs
  | _, [], _, _ => []
  | fuel + 1, c :: rest, pat, r =>
    if (c :: rest).take pat.length = pat then
      r ++ replaceAllLit fuel ((c :: rest).drop pat.length) pat r
    else c :: replaceAllLit fuel rest pat r

def replaceAll (s pat r : String) : String :=
  ⟨replaceAllLit s.data.length s.data pat.data r.data⟩

/-- `htmlEntityDecode`: decimal references, then hex references, then the
five named entities, in the source's replacement order. -/
def htmlEntityDecode (input : String) : String :=
  let s1 := replaceDecEnt input.data.length input.data
  let s2 := replaceHexEnt s1.length s1
  let s3 := replaceAllLit s2.length s2 "&lt;".data ['<']
  let s4 := replaceAllLit s3.length s3 "&gt;".data ['>']
  let s5 := replaceAllLit s4.length s4 "&amp;".data ['&']
  let s6 := replaceAllLit s5.length s5 "&quot;".data ['"']
  let s7 := replaceAllLit s6.length s6 "&apos;".data [Char.ofNat 39]
  ⟨s7⟩

/-- `unicodeEscapeEncode`: `\uXXXX` escapes for code units above 127. -/
def unicodeEscapeEncode (input : String) : String :=
  ⟨(jsUnits input).flatMap fun code =>
    if code > 127 then '\\' :: 'u' :: (padStart (natToHex code) 4 '0').data
    else [Char.ofNat code]⟩

/-- `unicodeEscapeDecode`: global replace of `/\\u([0-9a-fA-F]{4})/g`. -/
def unicodeEscapeDecodeGo : Nat → List Char → List Char
  | 0, cs => cs
  | _, [] => []
  | fuel + 1, '\\' :: 'u' :: h1 :: h2 :: h3 :: h4 :: rest =>
    if isHexDigit h1 ∧ isHexDigit h2 ∧ isHexDigit h3 ∧ isHexDigit h4 then
      fromCharCode ((hexDigitVal h1 * 4096 + hexDigitVal h2 * 256 +
        hexDigitVal h3 * 16 + hexDigitVal h4 : Nat) : Int) ::
        unicodeEscapeDecodeGo fuel rest
    else '\\' :: unicodeEscapeDecodeGo fuel ('u' :: h1 :: h2 :: h3 :: h4 :: rest)
  | fuel + 1, c :: rest => c :: unicodeEscapeDecodeGo fuel rest

def unicodeEscapeDecode (input : String) : String :=
  ⟨unicodeEscapeDecodeGo input.data.length input.data⟩

/-! ## Classical ciphers, `transformations.ts` -/

/-- `rot13`. -/
def rot13 (input : String) : String :=
  ⟨input.data.map fun c =>
    if isAsciiLetter c then
      let base := if c ≤ 'Z' then 65 else 97
      Char.ofNat ((c.toNat - base + 13) % 26 + base)
    else c⟩

/-- `rot47`. -/
def rot47 (input : String) : String :=
  ⟨input.data.map fun c =>
    if 33 ≤ c.toNat ∧ c.toNat ≤ 126 then Char.ofNat (33 + (c.toNat - 33 + 47) % 94)
    else c⟩

/-- `rotN` (`options?.shift ?? 5`); the shift may be any integer, and the
truncating `%` of JavaScript is modelled exactly. -/
def rotN (input : String) (options : Option Options) : String :=
  let shift := optNumD options "shift" 5
  ⟨input.data.map fun c =>
    if isAsciiLetter c then
      let base : Int := if c ≤ 'Z' then 65 else 97
      fromCharCode (jsRem ((c.toNat : Int) - base + shift) 26 + base)
    else c⟩

/-- `rotNDecode`: rotate by `26 - (shift % 26)`. -/
def rotNDecode (input : String) (options : Option Options) : String :=
  let shift := optNumD options "shift" 5
  rotN input (some [("shift", .num (26 - jsRem shift 26))])

/-- `caesarCipher` (`options?.shift ?? 3`). -/
def caesarCipher (input : String) (options : Option Options) : String :=
  let shift := optNumD options "shift" 3
  rotN input (some [("shift", .num shift)])

/-- `caesarDecipher`. -/
def caesarDecipher (input : String) (options : Option Options) : String :=
  let shift := optNumD options "shift" 3
  rotNDecode input (some [("shift", .num shift)])

/-- `atbashCipher`. -/
def atbashCipher (input : String) : String :=
  ⟨input.data.map fun c =>
    if isAsciiLetter c then
      let isUpper := c = jsToUpperChar c
      let base := if isUpper then 65 else 97
      Char.ofNat (base + (25 - (c.toNat - base)))
    else c⟩

/-! ## Leetspeak, `transformations.ts` -/

def LEET_LIGHT : List (Char × String) :=
  [('a', "4"), ('e', "3"), ('i', "1"), ('o', "0"), ('s', "5"), ('t', "7"),
   ('l', "1"), ('b', "8")]

def LEET_HEAVY : List (Char × String) :=
  [('a', "/-\\"), ('b', "|3"), ('c', "("), ('d', "|)"), ('e', "3"), ('f', "|="),
   ('g', "9"), ('h', "|-|"), ('i', "!"), ('j', "_|"), ('k', "|<"), ('l', "|_"),
   ('m', "|\\/|"), ('n', "|\\|"), ('o', "0"), ('p', "|*"), ('q', "0,"),
   ('r', "|2"), ('s', "$"), ('t', "+"), ('u', "|_|"), ('v', "\\/"),
   ('w', "\\/\\/"), ('x', "><"), ('y', "`/"), ('z', "2")]

/-- Insert/overwrite a key in a JavaScript-object entry list: the first
assignment fixes the position, later assignments update the value. -/
def jsObjUpdate (m : List (String × String)) (k v : String) : List (String × String) :=
  if m.any (·.1 = k) then m.map (fun p => if p.1 = k then (k, v) else p)
  else m ++ [(k, v)]

/-- `Object.fromEntries` followed by `Object.entries`: deduplicate keys with
JavaScript property-order semantics. -/
def jsObjEntries (l : List (String × String)) : List (String × String) :=
  l.foldl (fun m p => jsObjUpdate m p.1 p.2) []

def jsObjLookup (m : List (String × String)) (k : String) : Option String :=
  (m.find? (·.1 == k)).map (·.2)

/-- `LEET_LIGHT_REVERSE` (duplicate value `'1'` resolves to `'l'`, the last
entry, at the position of the first). -/
def LEET_LIGHT_REVERSE : List (String × String) :=
  jsObjEntries (LEET_LIGHT.map fun p => (p.2, ⟨[p.1]⟩))

/-- `leetspeakEncode` (heavy when `options?.level === 'heavy'`). -/
def leetspeakEncode (input : String) (options : Option Options) : String :=
  let map := if getOptStr options "level" = some "heavy" then LEET_HEAVY else LEET_LIGHT
  ⟨(jsToLower input).data.flatMap fun c =>
    match map.find? (·.1 = c) with
    | some p => p.2.data
    | none => [c]⟩

/-- `leetspeakDecode`: successive `split(leet).join(char)` over the entries
of `LEET_LIGHT_REVERSE` in property order. -/
def leetspeakDecode (input : String) : String :=
  LEET_LIGHT_REVERSE.foldl (fun acc p => replaceAll acc p.1 p.2) input

/-! ## Vigenère and XOR, `new-transformations.ts` -/

/-- The processed Vigenère key:
`(options?.key || 'SECRET').toUpperCase().replace(/[^A-Z]/g, '')`. -/
def vigenereKey (options : Option Options) : List Char :=
  ((jsToUpper (optStrOr options "key" "SECRET")).data.filter isAsciiUpper)

/-- Character step shared by Vigenère encode/decode; `op` combines the
letter index with the key index mod 26. -/
def vigenereGo (key : List Char) (op : Nat → Nat → Nat) :
    List Char → Nat → List Char
  | [], _ => []
  | c :: rest, keyIndex =>
    if isAsciiLetter c then
      let isUpper := c = jsToUpperChar c
      let base := if isUpper then 65 else 97
      let charCode := (jsToUpperChar c).toNat - 65
      let keyCode := (key.getD (keyIndex % key.length) 'A').toNat - 65
      Char.ofNat (op charCode keyCode % 26 + base) :: vigenereGo key op rest (keyIndex + 1)
    else c :: vigenereGo key op rest keyIndex

/-- `vigenereEncode`. -/
def vigenereEncode (input : String) (options : Option Options) : String :=
  let key := vigenereKey options
  if key = [] then input
  else ⟨vigenereGo key (fun c k => c + k) input.data 0⟩

/-- `vigenereDecode` (`(charCode - keyCode + 26) % 26`). -/
def vigenereDecode (input : String) (options : Option Options) : String :=
  let key := vigenereKey options
  if key = [] then input
  else ⟨vigenereGo key (fun c k => c + 26 - k) input.data 0⟩

/-- `xorEncode`: byte-wise XOR with the repeating key, as lower-case hex. -/
def xorEncode (input : String) (options : Option Options) : String :=
  let keyBytes := utf8Encode (optStrOr options "key" "KEY")
  let bytes := utf8Encode input
  String.join (bytes.enum.map fun p =>
    byteToHex (p.2 ^^^ keyBytes.getD (p.1 % keyBytes.length) 0))

/-- `input.substr(i, 2)` chunks for `i = 0, 2, 4, …`. -/
def pairChunks : List Char → List (List Char)
  | [] => []
  | [a] => [[a]]
  | a :: b :: rest => [a, b] :: pairChunks rest

/-- `xorDecode`: parse hex pairs, XOR with the repeating key, decode UTF-8. -/
def xorDecode (input : String) (options : Option Options) : String :=
  let keyBytes := utf8Encode (optStrOr options "key" "KEY")
  let bytes := (pairChunks input.data).map fun ch => toUint8OrZero (jsParseIntHex ch)
  utf8Decode (bytes.enum.map fun p => p.2 ^^^ keyBytes.getD (p.1 % keyBytes.length) 0)

/-! ## AES (demo sync wrappers), `new-transformations.ts` -/

/-- `btoa`: Base64 of a latin1 string; throws on code units above 255. -/
def btoa (s : String) : Except String String :=
  if (jsUnits s).all (· < 256) then .ok ⟨b64EncodeBytes (jsUnits s)⟩
  else .error "InvalidCharacterError"

/-- `aesEncodeSync`: the demo marker string
`[AES:<base64 of input>:<base64 of key>]`. -/
def aesEncodeSync (input : String) (options : Option Options) : Except String String := do
  let key := optStrOr options "key" "password"
  let kb ← btoa key
  .ok ("[AES:" ++ (⟨b64EncodeBytes (utf8Encode input)⟩ : String) ++ ":" ++ kb ++ "]")

/-- Scan the tail after a candidate group-1 for `:(.+)]`: at least one
non-line-terminator character and then a `]` before any line terminator. -/
def aesTailSearch : List Char → Bool
  | [] => false
  | c :: rest => if c = ']' then true else if isLineTerm c then false else aesTailSearch rest

def aesTailOk : List Char → Bool
  | [] => false
  | c :: rest => if isLineTerm c then false else aesTailSearch rest

/-- Greedy group 1 of `/\[AES:(.+):(.+)\]/` after the literal `[AES:`. -/
def aesGroup1Max (rest : List Char) : Option (List Char) :=
  ((List.range rest.length).reverse).findSome? fun p =>
    if 1 ≤ p ∧ rest.getD p ' ' = ':' ∧ (rest.take p).all (fun c => ¬ isLineTerm c) ∧
        aesTailOk (rest.drop (p + 1)) then
      some (rest.take p)
    else none

/-- Leftmost match of `/\[AES:(.+):(.+)\]/`, returning group 1. -/
def aesFindGroup1 : Nat → List Char → Option (List Char)
  | 0, _ => none
  | _, [] => none
  | fuel + 1, '[' :: 'A' :: 'E' :: 'S' :: ':' :: rest =>
    match aesGroup1Max rest with
    | some x => some x
    | none => aesFindGroup1 fuel ('A' :: 'E' :: 'S' :: ':' :: rest)
  | fuel + 1, _ :: rest => aesFindGroup1 fuel rest

/-- `aesDecodeSync`: extract the Base64 payload and decode it; any failure
inside the `try` yields the `[Decryption failed]` marker; a non-matching
input is returned unchanged. -/
def aesDecodeSync (input : String) (_options : Option Options) : String :=
  match aesFindGroup1 input.data.length input.data with
  | none => input
  | some g1 =>
    match atob ⟨g1⟩ with
    | .error _ => "[Decryption failed]"
    | .ok bytes =>
      match utf8DecodeStrict bytes with
      | some s => s
      | none => "[Decryption failed]"

/-! ## Morse and Bacon, `new-transformations.ts` -/

def MORSE_CODE : List (Char × String) :=
  [('A', ".-"), ('B', "-..."), ('C', "-.-."), ('D', "-.."), ('E', "."),
   ('F', "..-."), ('G', "--."), ('H', "...."), ('I', ".."), ('J', ".---"),
   ('K', "-.-"), ('L', ".-.."), ('M', "--"), ('N', "-."), ('O', "---"),
   ('P', ".--."), ('Q', "--.-"), ('R', ".-."), ('S', "..."), ('T', "-"),
   ('U', "..-"), ('V', "...-"), ('W', ".--"), ('X', "-..-"), ('Y', "-.--"),
   ('Z', "--.."), ('0', "-----"), ('1', ".----"), ('2', "..---"),
   ('3', "...--"), ('4', "....-"), ('5', "....."), ('6', "-...."),
   ('7', "--..."), ('8', "---.."), ('9', "----."), ('.', ".-.-.-"),
   (',', "--..--"), ('?', "..--.."), (Char.ofNat 39, ".----."),
   ('!', "-.-.--"), ('/', "-..-."), ('(', "-.--."), (')', "-.--.-"),
   ('&', ".-..."), (':', "---..."), (';', "-.-.-."), ('=', "-...-"),
   ('+', ".-.-."), ('-', "-....-"), ('_', "..--.-"), ('"', ".-..-."),
   ('$', "...-..-"), ('@', ".--.-."), (' ', "/")]

def MORSE_REVERSE : List (String × String) :=
  jsObjEntries (MORSE_CODE.map fun p => (p.2, ⟨[p.1]⟩))

/-- `morseEncode`: `MORSE_CODE[char] || char` per upper-cased character,
joined with spaces. -/
def morseEncode (input : String) : String :=
  String.intercalate " " ((jsToUpper input).data.map fun c =>
    match MORSE_CODE.find? (·.1 = c) with
    | some p => p.2
    | none => ⟨[c]⟩)

/-- `input.split(sep)` for a one-character separator. -/
def splitOnChar (sep : Char) : List Char → List (List Char)
  | [] => [[]]
  | c :: rest =>
    match splitOnChar sep rest with
    | [] => [[c]]
    | h :: t => if c = sep then [] :: h :: t else (c :: h) :: t

/-- `morseDecode`: per space-separated token, `MORSE_REVERSE[code] || code`. -/
def morseDecode (input : String) : String :=
  String.join ((splitOnChar ' ' input.data).map fun tok =>
    match jsObjLookup MORSE_REVERSE ⟨tok⟩ with
    | some s => s
    | none => ⟨tok⟩)

def BACON_CIPHER : List (Char × String) :=
  [('A', "AAAAA"), ('B', "AAAAB"), ('C', "AAABA"), ('D', "AAABB"),
   ('E', "AABAA"), ('F', "AABAB"), ('G', "AABBA"), ('H', "AABBB"),
   ('I', "ABAAA"), ('J', "ABAAB"), ('K', "ABABA"), ('L', "ABABB"),
   ('M', "ABBAA"), ('N', "ABBAB"), ('O', "ABBBA"), ('P', "ABBBB"),
   ('Q', "BAAAA"), ('R', "BAAAB"), ('S', "BAABA"), ('T', "BAABB"),
   ('U', "BABAA"), ('V', "BABAB"), ('W', "BABBA"), ('X', "BABBB"),
   ('Y', "BBAAA"), ('Z', "BBAAB")]

def BACON_REVERSE : List (String × String) :=
  jsObjEntries (BACON_CIPHER.map fun p => (p.2, ⟨[p.1]⟩))

/-- `baconEncode`. -/
def baconEncode (input : String) : String :=
  String.intercalate " " ((jsToUpper input).data.map fun c =>
    match BACON_CIPHER.find? (·.1 = c) with
    | some p => p.2
    | none => ⟨[c]⟩)

/-- `baconDecode`: keep only `[ABab\s]`, upper-case, split on whitespace,
keep 5-character groups, decode each (unknown group → `?`). -/
def baconDecode (input : String) : String :=
  let cleaned := (input.data.filter fun c =>
    c = 'A' ∨ c = 'B' ∨ c = 'a' ∨ c = 'b' ∨ isJsSpace c).map jsToUpperChar
  let groups := (splitWsRuns cleaned).filter (·.length = 5)
  String.join (groups.map fun g =>
    match jsObjLookup BACON_REVERSE ⟨g⟩ with
    | some s => s
    | none => "?")

/-! ## Rail fence, `new-transformations.ts` -/

/-- The zig-zag rail index sequence: rail starts at 0, direction +1,
reversing after stepping onto rail 0 or rail `rails - 1`. -/
def railSeqGo (rails : Int) : Nat → Int → Int → List Int
  | 0, _, _ => []
  | k + 1, rail, dir =>
    let rail2 := rail + dir
    let dir2 := if rail2 = 0 ∨ rail2 = rails - 1 then -dir else dir
    rail :: railSeqGo rails k rail2 dir2

def railRangeList (rails : Int) : List Int :=
  (List.range rails.toNat).map Int.ofNat

/-- `railFenceEncode` (`options?.rails || 3`). -/
def railFenceEncode (input : String) (options : Option Options) : String :=
  let rails := optNumOr options "rails" 3
  if rails < 2 then input
  else
    let seq := railSeqGo rails input.data.length 0 1
    let pairs := seq.zip input.data
    ⟨(railRangeList rails).flatMap fun r => (pairs.filter (·.1 = r)).map (·.2)⟩

/-- `railFenceDecode`: mark the zig-zag positions, fill them row-major with
the ciphertext, read off along the zig-zag. -/
def railFenceDecode (input : String) (options : Option Options) : String :=
  let rails := optNumOr options "rails" 3
  if rails < 2 then input
  else
    let len := input.data.length
    let seq := railSeqGo rails len 0 1
    let perm := (railRangeList rails).flatMap fun r =>
      (List.range len).filter fun c => seq.getD c 0 = r
    let assign := perm.zip input.data
    ⟨(List.range len).filterMap fun i => (assign.find? (·.1 = i)).map (·.2)⟩

/-! ## Affine and Polybius, `new-transformations.ts` -/

/-- `modInverse`: brute-force search over `1..m-1`, defaulting to 1. -/
def modInverse (a m : Int) : Int :=
  match ((List.range m.toNat).drop 1).find?
      (fun x => jsRem (jsRem a m * jsRem (Int.ofNat x) m) m = 1) with
  | some x => Int.ofNat x
  | none => 1

/-- `affineEncode` (`options?.a || 5`, `options?.b || 8`). -/
def affineEncode (input : String) (options : Option Options) : String :=
  let a := optNumOr options "a" 5
  let b := optNumOr options "b" 8
  ⟨input.data.map fun c =>
    if isAsciiLetter c then
      let isUpper := c = jsToUpperChar c
      let x := ((jsToUpperChar c).toNat : Int) - 65
      let result := fromCharCode (jsRem (a * x + b) 26 + 65)
      if isUpper then result else jsToLowerChar result
    else c⟩

/-- `affineDecode`. -/
def affineDecode (input : String) (options : Option Options) : String :=
  let a := optNumOr options "a" 5
  let b := optNumOr options "b" 8
  let aInv := modInverse a 26
  ⟨input.data.map fun c =>
    if isAsciiLetter c then
      let isUpper := c = jsToUpperChar c
      let y := ((jsToUpperChar c).toNat : Int) - 65
      let decoded := jsRem (jsRem (aInv * (y - b + 26)) 26 + 26) 26
      let result := fromCharCode (decoded + 65)
      if isUpper then result else jsToLowerChar result
    else c⟩

def POLYBIUS_GRID : List (List Char) :=
  [['A', 'B', 'C', 'D', 'E'], ['F', 'G', 'H', 'I', 'K'], ['L', 'M', 'N', 'O', 'P'],
   ['Q', 'R', 'S', 'T', 'U'], ['V', 'W', 'X', 'Y', 'Z']]

/-- The row/column scan of `polybiusEncode` (first matching cell). -/
def polybiusFind (ch : Char) : Option (Nat × Nat) :=
  ((List.range 5).flatMap fun r => (List.range 5).map fun c => (r, c)).find?
    fun p => (POLYBIUS_GRID.getD p.1 []).getD p.2 ' ' = ch

/-- `Array.prototype.join(' ')` over the produced character chunks. -/
def joinWithSpace : List (List Char) → List Char
  | [] => []
  | [t] => t
  | t :: rest => t ++ ' ' :: joinWithSpace rest

/-- The per-character token of `polybiusEncode`: the 1-based row/column
digit pair for grid letters, the character itself otherwise. -/
def polybiusTok (ch : Char) : List Char :=
  match polybiusFind ch with
  | some p => [decDigit (p.1 + 1), decDigit (p.2 + 1)]
  | none => [ch]

/-- `polybiusEncode`: upper-case, merge J into I, map grid letters to
1-based row/column digit pairs, join with spaces. -/
def polybiusEncode (input : String) : String :=
  let s := (jsToUpper input).data.map fun c => if c = 'J' then 'I' else c
  ⟨joinWithSpace (s.map polybiusTok)⟩

/-- `input.match(/\d{2}/g)`: non-overlapping digit pairs, scanning left to
right. -/
def digitPairs : Nat → List Char → List (Char × Char)
  | 0, _ => []
  | _, [] => []
  | fuel + 1, c :: rest =>
    if isAsciiDigit c then
      match rest with
      | c2 :: rest2 =>
        if isAsciiDigit c2 then (c, c2) :: digitPairs fuel rest2
        else digitPairs fuel rest
      | [] => []
    else digitPairs fuel rest

/-- The per-pair grid lookup of `polybiusDecode` (`parseInt(pair[0]) - 1`
row, `parseInt(pair[1]) - 1` column; out of range yields `?`). -/
def polybiusCell (p : Char × Char) : Char :=
  let row := (p.1.toNat : Int) - '0'.toNat - 1
  let col := (p.2.toNat : Int) - '0'.toNat - 1
  if 0 ≤ row ∧ row < 5 ∧ 0 ≤ col ∧ col < 5 then
    (POLYBIUS_GRID.getD row.toNat []).getD col.toNat '?'
  else '?'

/-- `polybiusDecode`: each digit pair indexes the grid 1-based. -/
def polybiusDecode (input : String) : String :=
  ⟨(digitPairs input.data.length input.data).map polybiusCell⟩

/-! ## Hashes, `new-transformations.ts` and `transformations.ts` -/

/-- `sha256Encode` — the synchronous *placeholder* in the source: a 64-bit
rolling hash `((hash << 5n) - hash + char) & 0xFFFFFFFFFFFFFFFFn` over the
UTF-16 code units, hex-padded to 16 digits and repeated to 64. -/
def sha256Encode (input : String) : String :=
  let hash := (jsUnits input).foldl (fun h c => (h * 32 - h + c) % 2 ^ 64) 0
  let base := padStart (natToHex hash) 16 '0'
  ⟨(base ++ base ++ base ++ base).data.take 64⟩

/-- `sha512Encode` — the synchronous placeholder: a 128-bit rolling hash
`((hash << 7n) - hash + char)` masked to 128 bits, hex-padded to 32 digits
and repeated to 128. -/
def sha512Encode (input : String) : String :=
  let hash := (jsUnits input).foldl (fun h c => (h * 128 - h + c) % 2 ^ 128) 0
  let base := padStart (natToHex hash) 32 '0'
  ⟨(base ++ base ++ base ++ base).data.take 128⟩

/-- `md5Hash` — the demo rolling hash bound to the `hash` registry entry:
`hash = ((hash << 5) - hash) + char; hash = hash & hash` over the UTF-16
code units, then `Math.abs(hash).toString(16).padStart(8, '0')`. -/
def md5Hash (input : String) : String :=
  let hash := (jsUnits input).foldl
    (fun (h : Int) c => toInt32 (jsShl32 h 5 - h + c)) 0
  padStart (natToHex hash.natAbs) 8 '0'

/-- Per-round shift amounts of MD5. -/
def md5S : List Nat :=
  [7, 12, 17, 22, 7, 12, 17, 22, 7, 12, 17, 22, 7, 12, 17, 22,
   5, 9, 14, 20, 5, 9, 14, 20, 5, 9, 14, 20, 5, 9, 14, 20,
   4, 11, 16, 23, 4, 11, 16, 23, 4, 11, 16, 23, 4, 11, 16, 23,
   6, 10, 15, 21, 6, 10, 15, 21, 6, 10, 15, 21, 6, 10, 15, 21]

/-- Per-round additive constants of MD5. -/
def md5K : List Nat :=
  [0xd76aa478, 0xe8c7b756, 0x242070db, 0xc1bdceee, 0xf57c0faf, 0x4787c62a,
   0xa8304613, 0xfd469501, 0x698098d8, 0x8b44f7af, 0xffff5bb1, 0x895cd7be,
   0x6b901122, 0xfd987193, 0xa679438e, 0x49b40821, 0xf61e2562, 0xc040b340,
   0x265e5a51, 0xe9b6c7aa, 0xd62f105d, 0x02441453, 0xd8a1e681, 0xe7d3fbc8,
   0x21e1cde6, 0xc33707d6, 0xf4d50d87, 0x455a14ed, 0xa9e3e905, 0xfcefa3f8,
   0x676f02d9, 0x8d2a4c8a, 0xfffa3942, 0x8771f681, 0x6d9d6122, 0xfde5380c,
   0xa4beea44, 0x4bdecfa9, 0xf6bb4b60, 0xbebfbc70, 0x289b7ec6, 0xeaa127fa,
   0xd4ef3085, 0x04881d05, 0xd9d4d039, 0xe6db99e5, 0x1fa27cf8, 0xc4ac5665,
   0xf4292244, 0x432aff97, 0xab9423a7, 0xfc93a039, 0x655b59c3, 0x8f0ccc92,
   0xffeff47d, 0x85845dd1, 0x6fa87e4f, 0xfe2ce6e0, 0xa3014314, 0x4e0811a1,
   0xf7537e82, 0xbd3af235, 0x2ad7d2bb, 0xeb86d391]

/-- 32-bit left rotation over `Nat` values below 2^32. -/
def rotl32 (x n : Nat) : Nat := (x <<< n) % 2 ^ 32 ||| (x >>> (32 - n))

/-- 32-bit complement. -/
def not32 (x : Nat) : Nat := 0xFFFFFFFF ^^^ x

/-- The MD5 message padding of `md5Encode`; the length field is written as
`(originalLength >>> (i * 8)) & 0xFF` for `i = 0..7`, and since JavaScript
masks shift counts to 5 bits the 32-bit length value is repeated twice. -/
def md5Pad (bytes : List Nat) : List Nat :=
  let originalLength := bytes.length * 8
  let bytes := bytes ++ [0x80]
  let bytes := bytes ++ List.replicate ((56 + 64 - bytes.length % 64) % 64) 0
  bytes ++ (List.range 8).map fun i =>
    (originalLength % 2 ^ 32) >>> (i * 8 % 32) % 256

/-- Split into 64-byte chunks (fuel-driven). -/
def chunks64 : Nat → List Nat → List (List Nat)
  | 0, _ => []
  | _, [] => []
  | fuel + 1, l => l.take 64 :: chunks64 fuel (l.drop 64)

/-- The 16 little-endian message words of one MD5 chunk. -/
def md5Words (chunk : List Nat) : List Nat :=
  (List.range 16).map fun j =>
    chunk.getD (j * 4) 0 + chunk.getD (j * 4 + 1) 0 * 2 ^ 8 +
      chunk.getD (j * 4 + 2) 0 * 2 ^ 16 + chunk.getD (j * 4 + 3) 0 * 2 ^ 24

/-- One of the 64 MD5 rounds. -/
def md5Round (M : List Nat) (st : Nat × Nat × Nat × Nat) (i : Nat) :
    Nat × Nat × Nat × Nat :=
  let (A, B, C, D) := st
  let F :=
    if i < 16 then (B &&& C) ||| (not32 B &&& D)
    else if i < 32 then (D &&& B) ||| (not32 D &&& C)
    else if i < 48 then B ^^^ C ^^^ D
    else C ^^^ (B ||| not32 D)
  let g :=
    if i < 16 then i
    else if i < 32 then (5 * i + 1) % 16
    else if i < 48 then (3 * i + 5) % 16
    else 7 * i % 16
  let F2 := (F + A + md5K.getD i 0 + M.getD g 0) % 2 ^ 32
  (D, (B + rotl32 F2 (md5S.getD i 0)) % 2 ^ 32, B, C)

/-- One 64-byte MD5 chunk applied to the running state. -/
def md5Chunk (st : Nat × Nat × Nat × Nat) (chunk : List Nat) :
    Nat × Nat × Nat × Nat :=
  let M := md5Words chunk
  let (a0, b0, c0, d0) := st
  let r := (List.range 64).foldl (md5Round M) (a0, b0, c0, d0)
  ((a0 + r.1) % 2 ^ 32, (b0 + r.2.1) % 2 ^ 32,
   (c0 + r.2.2.1) % 2 ^ 32, (d0 + r.2.2.2) % 2 ^ 32)

/-- Little-endian hex rendering of a 32-bit word (`toHex` in the source). -/
def md5WordHex (n : Nat) : String :=
  String.join ((List.range 4).map fun i => byteToHex (n >>> (i * 8) % 256))

/-- `md5Encode` (`new-transformations.ts`): MD5 over
`input.charCodeAt(i) & 0xFF` per UTF-16 code unit. -/
def md5Encode (input : String) : String :=
  let bytes := md5Pad ((jsUnits input).map (· % 256))
  let final := (chunks64 bytes.length bytes).foldl md5Chunk
    (0x67452301, 0xefcdab89, 0x98badcfe, 0x10325476)
  md5WordHex final.1 ++ md5WordHex final.2.1 ++ md5WordHex final.2.2.1 ++
    md5WordHex final.2.2.2

/-! ## Analysis tools, `new-transformations.ts` -/

/-- First occurrence of each character, in order (JavaScript object
property-insertion order for the `freq` record). -/
def firstOccurrences (l : List Char) : List Char :=
  l.foldl (fun acc c => if acc.contains c then acc else acc ++ [c]) []

/-- `((num / den) * 100).toFixed(1)` modelled with exact rational rounding
(round half up on the exact value; the double-precision artefacts of the
source's float division are not modelled).  `den = 0` yields `NaN`. -/
def toFixed1Pct (num den : Nat) : String :=
  if den = 0 then "NaN"
  else
    let scaled := (num * 1000 * 2 + den) / (2 * den)
    natToString (scaled / 10) ++ "." ++ natToString (scaled % 10)

/-- `frequencyAnalysis`: letter counts in first-occurrence order, stably
sorted by descending count, with percentage of all letters. -/
def frequencyAnalysis (input : String) : String :=
  let total := (input.data.filter isAsciiLetter).length
  let lower := (jsToLower input).data
  let freq := (firstOccurrences (lower.filter isAsciiLower)).map fun c =>
    (c, (lower.filter (· = c)).length)
  let sorted := freq.mergeSort fun a b => b.2 ≤ a.2
  let lines := sorted.map fun p =>
    (⟨[jsToUpperChar p.1]⟩ : String) ++ ": " ++ natToString p.2 ++ " (" ++
      toFixed1Pct p.2 total ++ "%)"
  "=== Frequency Analysis ===\nTotal letters: " ++ natToString total ++
    "\n\n" ++ String.intercalate "\n" lines ++ "\n\nExpected English: E T A O I N S H R"

def listJsLen (cs : List Char) : Nat := (cs.map charUnitLen).foldr (· + ·) 0

/-- `s.slice(0, n)` over UTF-16 code units (a scalar value straddling the
cut is dropped; the source never cuts astral pairs in the proofs below). -/
def jsSliceTake : Nat → List Char → List Char
  | _, [] => []
  | 0, _ => []
  | budget, c :: rest =>
    if charUnitLen c ≤ budget then c :: jsSliceTake (budget - charUnitLen c) rest
    else []

/-- `bruteForceCaesar`: all 25 shifts, each line truncated to 50 units. -/
def bruteForceCaesar (input : String) : String :=
  String.intercalate "\n" (((List.range 25).map (· + 1)).map fun shift =>
    let decoded := input.data.map fun c =>
      if isAsciiLetter c then
        let base := if c ≤ 'Z' then 65 else 97
        Char.ofNat ((c.toNat - base + 26 - shift) % 26 + base)
      else c
    "ROT " ++ padStart (natToString shift) 2 '0' ++ ": " ++
      (⟨jsSliceTake 50 decoded⟩ : String) ++
      (if listJsLen decoded > 50 then "..." else ""))

/-- `input.trim()`. -/
def jsTrim (cs : List Char) : List Char :=
  ((cs.dropWhile isJsSpace).reverse.dropWhile isJsSpace).reverse

/-- `characterStats`. -/
def characterStats (input : String) : String :=
  let chars := jsLength input
  let bytes := (utf8Encode input).length
  let words := ((splitWsRuns (jsTrim input.data)).filter (· ≠ [])).length
  let lineCount := (splitOnChar '\n' input.data).length
  let letters := (input.data.filter isAsciiLetter).length
  let digits := (input.data.filter isAsciiDigit).length
  let spaces := (input.data.filter isJsSpace).length
  let special := chars - letters - digits - spaces
  "=== Character Statistics ===\nCharacters: " ++ natToString chars ++
    "\nBytes (UTF-8): " ++ natToString bytes ++
    "\nWords: " ++ natToString words ++
    "\nLines: " ++ natToString lineCount ++
    "\n\nLetters: " ++ natToString letters ++
    "\nDigits: " ++ natToString digits ++
    "\nSpaces: " ++ natToString spaces ++
    "\nSpecial: " ++ natToString special ++
    "\n\nUppercase: " ++ natToString ((input.data.filter isAsciiUpper).length) ++
    "\nLowercase: " ++ natToString ((input.data.filter isAsciiLower).length)

/-! ## Steganography and obfuscation, `transformations.ts`

The file stores its emoji/braille literals as the mojibake character
sequences produced by a UTF-8 → Mac-Roman → UTF-8 round trip; they are
transcribed here byte-exactly with `\u` escapes.  A consequence carried
over faithfully: several decoders compare a *single* character against
a multi-character literal, which is always false. -/

/-- `BRAILLE_MAP` (`transformations.ts`; the non-ASCII values are transcribed byte-exactly from the file). -/
def BRAILLE_MAP : List (Char × String) :=
  [('a', "\u201A\u2020\u00C5"), ('b', "\u201A\u2020\u00C9"), ('c', "\u201A\u2020\u00E2"),
   ('d', "\u201A\u2020\u00F4"), ('e', "\u201A\u2020\u00EB"), ('f', "\u201A\u2020\u00E3"),
   ('g', "\u201A\u2020\u00F5"), ('h', "\u201A\u2020\u00EC"), ('i', "\u201A\u2020\u00E4"),
   ('j', "\u201A\u2020\u00F6"), ('k', "\u201A\u2020\u00D6"), ('l', "\u201A\u2020\u00E1"),
   ('m', "\u201A\u2020\u00E7"), ('n', "\u201A\u2020\u00F9"), ('o', "\u201A\u2020\u00EF"),
   ('p', "\u201A\u2020\u00E8"), ('q', "\u201A\u2020\u00FC"), ('r', "\u201A\u2020\u00F3"),
   ('s', "\u201A\u2020\u00E9"), ('t', "\u201A\u2020\u00FB"), ('u', "\u201A\u2020\u2022"),
   ('v', "\u201A\u2020\u00DF"), ('w', "\u201A\u2020\u222B"), ('x', "\u201A\u2020\u2260"),
   ('y', "\u201A\u2020\u03A9"), ('z', "\u201A\u2020\u00B5"), (' ', "\u201A\u2020\u00C4"),
   ('0', "\u201A\u2020\u00F6"), ('1', "\u201A\u2020\u00C5"), ('2', "\u201A\u2020\u00C9"),
   ('3', "\u201A\u2020\u00E2"), ('4', "\u201A\u2020\u00F4"), ('5', "\u201A\u2020\u00EB"),
   ('6', "\u201A\u2020\u00E3"), ('7', "\u201A\u2020\u00F5"), ('8', "\u201A\u2020\u00EC"),
   ('9', "\u201A\u2020\u00E4")]

/-- `HOMOGLYPHS_LIGHT` (`transformations.ts`). -/
def HOMOGLYPHS_LIGHT : List (Char × String) :=
  [('a', "\u2013\u221E"), ('c', "\u2014\u00C5"), ('e', "\u2013\u00B5"), ('o', "\u2013\u00E6"),
   ('p', "\u2014\u00C4"), ('x', "\u2014\u00D6"), ('y', "\u2014\u00C9"), ('A', "\u2013\u00EA"),
   ('B', "\u2013\u00ED"), ('C', "\u2013\u00B0"), ('E', "\u2013\u00EF"), ('H', "\u2013\u00F9"),
   ('K', "\u2013\u00F6"), ('M', "\u2013\u00FA"), ('O', "\u2013\u00FB"), ('P', "\u2013\u2020"),
   ('T', "\u2013\u00A2"), ('X', "\u2013\u2022")]

/-- `HOMOGLYPHS_HEAVY` = `{ ...HOMOGLYPHS_LIGHT, (extra entries) }`. -/
def HOMOGLYPHS_HEAVY : List (Char × String) :=
  HOMOGLYPHS_LIGHT ++
    [('i', "\u2014\u00F1"), ('j', "\u2014\u00F2"), ('s', "\u2014\u00EF"), ('I', "\u2013\u00DC"), ('J', "\u2013\u00E0"), ('S', "\u2013\u00D6"), ('0', "\u2013\u00FB"), ('1', "\u2013\u00DC"), ('3', "\u2013\u00F3"), ('6', "\u2013\u00B1")]

/-- `EMOJI_ALPHABET` (`transformations.ts`). -/
def EMOJI_ALPHABET : List (Char × String) :=
  [('a', "\uF8FF\u00FC\u00E7\u00E9"), ('b', "\uF8FF\u00FC\u00E7\u00E5"),
   ('c', "\uF8FF\u00FC\u00EA\u00B1"), ('d', "\uF8FF\u00FC\u00EA\u00EF"),
   ('e', "\uF8FF\u00FC\u00B6\u00D6"), ('f', "\uF8FF\u00FC\u00EA\u220F"),
   ('g', "\uF8FF\u00FC\u00E7\u00E1"), ('h', "\uF8FF\u00FC\u00E8\u2020"),
   ('i', "\uF8FF\u00FC\u00E7\u00B6"), ('j', "\uF8FF\u00FC\u00C9\u00E8"),
   ('k', "\uF8FF\u00FC\u00EE\u00EB"), ('l', "\uF8FF\u00FC\u00B6\u00C5"),
   ('m', "\uF8FF\u00FC\u00E5\u00F4"), ('n', "\uF8FF\u00FC\u00EC\u221E"),
   ('o', "\uF8FF\u00FC\u00EA\u00F4"), ('p', "\uF8FF\u00FC\u00E7\u00EF"),
   ('q', "\uF8FF\u00FC\u00EB\u220F"), ('r', "\uF8FF\u00FC\u00E5\u00E0"),
   ('s', "\u201A\u2260\u00EA"), ('t', "\uF8FF\u00FC\u00E5\u2264"),
   ('u', "\u201A\u00F2\u00C7\u00D4\u220F\u00E8"), ('v', "\uF8FF\u00FC\u00E9\u00AA"),
   ('w', "\uF8FF\u00FC\u00EA\u00E3"), ('x', "\u201A\u00FA\u00F1\u00D4\u220F\u00E8"),
   ('y', "\uF8FF\u00FC\u00ED\u00F5"), ('z', "\u201A\u00F6\u00B0"), (' ', "\u201A\u00FB\u00F1"),
   ('0', "0\u00D4\u220F\u00E8\u201A\u00C9\u00A3"),
   ('1', "1\u00D4\u220F\u00E8\u201A\u00C9\u00A3"),
   ('2', "2\u00D4\u220F\u00E8\u201A\u00C9\u00A3"),
   ('3', "3\u00D4\u220F\u00E8\u201A\u00C9\u00A3"),
   ('4', "4\u00D4\u220F\u00E8\u201A\u00C9\u00A3"),
   ('5', "5\u00D4\u220F\u00E8\u201A\u00C9\u00A3"),
   ('6', "6\u00D4\u220F\u00E8\u201A\u00C9\u00A3"),
   ('7', "7\u00D4\u220F\u00E8\u201A\u00C9\u00A3"),
   ('8', "8\u00D4\u220F\u00E8\u201A\u00C9\u00A3"),
   ('9', "9\u00D4\u220F\u00E8\u201A\u00C9\u00A3")]

/-- The two string literals of the `binary` branch of `brailleEncode`. -/
def brailleBinOne : String := "\u201A\u2020\u00F8"
def brailleBinZero : String := "\u201A\u2020\u00C4"

/-- `BINARY_EMOJI` — `'0'` and `'1'` images. -/
def BINARY_EMOJI_ZERO : String := "\u201A\u00F6\u00B4"
def BINARY_EMOJI_ONE : String := "\u201A\u00F6\u2122"

/-- `SKIN_TONES` (`transformations.ts`). -/
def SKIN_TONES : List String :=
  ["\uF8FF\u00FC\u00E8\u00AA", "\uF8FF\u00FC\u00E8\u00BA", "\uF8FF\u00FC\u00E8\u03A9",
   "\uF8FF\u00FC\u00E8\u00E6", "\uF8FF\u00FC\u00E8\u00F8"]

/-- `baseEmoji` of `emojiSkinToneEncode` (and the comparison literal of the decoder). -/
def waveEmoji : String := "\uF8FF\u00FC\u00EB\u00E3"

/-- `NOISE_EMOJIS` (`transformations.ts`). -/
def NOISE_EMOJIS : List String :=
  ["\uF8FF\u00FC\u00F2\u00C4", "\uF8FF\u00FC\u00F2\u00C9", "\uF8FF\u00FC\u00F2\u00D1",
   "\uF8FF\u00FC\u00F2\u00C5", "\uF8FF\u00FC\u00F2\u00DC", "\uF8FF\u00FC\u00F2\u00D6",
   "\uF8FF\u00FC\u00A7\u00A3", "\uF8FF\u00FC\u00F2\u00C7", "\uF8FF\u00FC\u00F4\u00C7",
   "\uF8FF\u00FC\u00F4\u00C9", "\uF8FF\u00FC\u00F2\u00E2", "\uF8FF\u00FC\u00F2\u00E4"]

/-- `paddingEmojis` of `emojiPaddingEncode`/`emojiPaddingDecode`. -/
def paddingEmojis : List String :=
  ["\u00D4\u220F\u00E8", "\u201A\u00C4\u00E7", "\uF8FF\u00FC\u00E8\u00AA",
   "\uF8FF\u00FC\u00E8\u00BA", "\uF8FF\u00FC\u00E8\u03A9", "\uF8FF\u00FC\u00E8\u00E6",
   "\uF8FF\u00FC\u00E8\u00F8"]

/-- `emojiAlphabetChars` of `detectPossibleEncodings`. -/
def emojiAlphabetChars : List String :=
  ["\uF8FF\u00FC\u00E7\u00E9", "\uF8FF\u00FC\u00E7\u00E5", "\uF8FF\u00FC\u00EA\u00B1",
   "\uF8FF\u00FC\u00EA\u00EF", "\uF8FF\u00FC\u00B6\u00D6", "\uF8FF\u00FC\u00EA\u220F",
   "\uF8FF\u00FC\u00E7\u00E1", "\uF8FF\u00FC\u00E8\u2020", "\uF8FF\u00FC\u00E7\u00B6",
   "\uF8FF\u00FC\u00C9\u00E8", "\uF8FF\u00FC\u00EE\u00EB", "\uF8FF\u00FC\u00B6\u00C5",
   "\uF8FF\u00FC\u00E5\u00F4", "\uF8FF\u00FC\u00EC\u221E", "\uF8FF\u00FC\u00EA\u00F4",
   "\uF8FF\u00FC\u00E7\u00EF", "\uF8FF\u00FC\u00EB\u220F", "\uF8FF\u00FC\u00E5\u00E0",
   "\u201A\u2260\u00EA", "\uF8FF\u00FC\u00E5\u2264", "\u201A\u00F2\u00C7\u00D4\u220F\u00E8",
   "\uF8FF\u00FC\u00E9\u00AA", "\uF8FF\u00FC\u00EA\u00E3",
   "\u201A\u00FA\u00F1\u00D4\u220F\u00E8", "\uF8FF\u00FC\u00ED\u00F5", "\u201A\u00F6\u00B0"]

def ZW_SPACE : Char := Char.ofNat 0x200B
def ZW_JOINER : Char := Char.ofNat 0x200D
def ZW_NON_JOINER : Char := Char.ofNat 0x200C

/-- Generic fuel-driven chunker (`slice(i, i + n)` loops). -/
def chunksOf (n : Nat) : Nat → List Char → List (List Char)
  | 0, _ => []
  | _, [] => []
  | fuel + 1, l => l.take n :: chunksOf n fuel (l.drop n)

/-- `brailleEncode` (`options?.mode || 'alphabetic'`); the `binary` mode
renders each UTF-16 code unit as eight 3-character pseudo-braille cells. -/
def brailleEncode (input : String) (options : Option Options) : String :=
  let mode := optStrOr options "mode" "alphabetic"
  if mode = "binary" then
    String.join ((jsUnits input).map fun code =>
      String.join ((bitsOfByte (code % 256) 8).map fun bit =>
        if bit = '1' then brailleBinOne else brailleBinZero))
  else
    ⟨(jsToLower input).data.flatMap fun c =>
      match BRAILLE_MAP.find? (·.1 = c) with
      | some p => p.2.data
      | none => [c]⟩

def BRAILLE_REVERSE : List (String × String) :=
  jsObjEntries (BRAILLE_MAP.map fun p => (p.2, ⟨[p.1]⟩))

/-- The character class of `brailleDecode`'s `binaryPattern`
(`/^[⠿⠀]+$/` over the mojibake literals: six characters, four distinct). -/
def brailleBinClass (c : Char) : Bool :=
  brailleBinOne.data.contains c ∨ brailleBinZero.data.contains c

/-- `brailleDecode`: if the whitespace-stripped input matches the binary
pattern, read 8-cell groups (`b === '⠿'` compares one character with a
3-character literal, hence every bit reads 0); otherwise a per-character
reverse lookup whose keys are 3-character strings (never equal to a single
character, so characters pass through). -/
def brailleDecode (input : String) : String :=
  let cleaned := input.data.filter (fun c => ¬ isJsSpace c)
  if cleaned ≠ [] ∧ cleaned.all brailleBinClass then
    ⟨(chunksOf 8 cleaned.length cleaned).map fun byte =>
      fromCharCode ((byte.foldl (fun v b =>
        v * 2 + (if (⟨[b]⟩ : String) = brailleBinOne then 1 else 0)) 0 : Nat) : Int)⟩
  else
    ⟨input.data.flatMap fun c =>
      match jsObjLookup BRAILLE_REVERSE ⟨[c]⟩ with
      | some v => v.data
      | none => [c]⟩

/-- `homoglyphEncode` (`options?.level === 'heavy'`). -/
def homoglyphEncode (input : String) (options : Option Options) : String :=
  let map := if getOptStr options "level" = some "heavy" then HOMOGLYPHS_HEAVY
             else HOMOGLYPHS_LIGHT
  ⟨input.data.flatMap fun c =>
    match map.find? (·.1 = c) with
    | some p => p.2.data
    | none => [c]⟩

/-- Interleave secret bits after carrier characters (the registry calls
`zeroWidthEncode` without a density option, so `density = 1` and
`Math.random() < 1` always holds: one bit is embedded after every carrier
character while bits remain, the rest appended at the end). -/
def zwInterleave : List Char → List Char → List Char
  | [], bits => bits.map fun b => if b = '1' then ZW_JOINER else ZW_NON_JOINER
  | c :: rest, [] => c :: zwInterleave rest []
  | c :: rest, b :: bits =>
    c :: (if b = '1' then ZW_JOINER else ZW_NON_JOINER) :: zwInterleave rest bits

/-- `zeroWidthEncode` at density 1 (the registry's configuration). -/
def zeroWidthEncode (carrier : String) (secret : String) : String :=
  ⟨zwInterleave carrier.data ((utf8Encode secret).flatMap fun b => bitsOfByte b 8)⟩

/-- `zeroWidthDecode`: collect ZWJ/ZWNJ as bits, decode full 8-bit groups. -/
def zeroWidthDecode (input : String) : String :=
  let binary := (input.data.filter fun c => c = ZW_JOINER ∨ c = ZW_NON_JOINER).map
    fun c => if c = ZW_JOINER then '1' else '0'
  let bytes := ((chunksOf 8 binary.length binary).filter (·.length = 8)).map
    fun byte => toUint8OrZero (jsParseIntBin byte)
  utf8Decode bytes

/-- `zeroWidthReveal`. -/
def zeroWidthReveal (input : String) : String :=
  ⟨input.data.flatMap fun c =>
    if c = ZW_SPACE then "[ZWSP]".data
    else if c = ZW_JOINER then "[ZWJ]".data
    else if c = ZW_NON_JOINER then "[ZWNJ]".data
    else [c]⟩

/-- `zeroWidthRemove`. -/
def zeroWidthRemove (input : String) : String :=
  ⟨input.data.filter fun c => ¬ (c = ZW_SPACE ∨ c = ZW_JOINER ∨ c = ZW_NON_JOINER)⟩

def EMOJI_ALPHABET_REVERSE : List (String × String) :=
  jsObjEntries (EMOJI_ALPHABET.map fun p => (p.2, ⟨[p.1]⟩))

/-- `emojiAlphabetEncode`. -/
def emojiAlphabetEncode (input : String) : String :=
  ⟨(jsToLower input).data.flatMap fun c =>
    match EMOJI_ALPHABET.find? (·.1 = c) with
    | some p => p.2.data
    | none => [c]⟩

/-- `emojiAlphabetDecode`: greedy longest match (3, 2, then 1 scalar
values) against the reverse map. -/
def emojiAlphabetDecodeGo : Nat → List Char → List Char
  | 0, _ => []
  | _, [] => []
  | fuel + 1, cs@(c :: rest) =>
    match jsObjLookup EMOJI_ALPHABET_REVERSE ⟨cs.take 3⟩ with
    | some v => v.data ++ emojiAlphabetDecodeGo fuel (cs.drop 3)
    | none =>
      match jsObjLookup EMOJI_ALPHABET_REVERSE ⟨cs.take 2⟩ with
      | some v => v.data ++ emojiAlphabetDecodeGo fuel (cs.drop 2)
      | none =>
        match jsObjLookup EMOJI_ALPHABET_REVERSE ⟨cs.take 1⟩ with
        | some v => v.data ++ emojiAlphabetDecodeGo fuel (cs.drop 1)
        | none => c :: emojiAlphabetDecodeGo fuel rest

def emojiAlphabetDecode (input : String) : String :=
  ⟨emojiAlphabetDecodeGo input.data.length input.data⟩

/-- `binaryEmojiEncode`. -/
def binaryEmojiEncode (input : String) : String :=
  String.join (((utf8Encode input).flatMap fun b => bitsOfByte b 8).map fun bit =>
    if bit = '0' then BINARY_EMOJI_ZERO else BINARY_EMOJI_ONE)

/-- `binaryEmojiDecode`: per scalar value, `BINARY_EMOJI_REVERSE[e] || ''`
(the keys are 3-character mojibake strings, so every lookup misses and the
result is always empty). -/
def binaryEmojiDecode (input : String) : String :=
  let binary := input.data.flatMap fun c =>
    if (⟨[c]⟩ : String) = BINARY_EMOJI_ZERO then ['0']
    else if (⟨[c]⟩ : String) = BINARY_EMOJI_ONE then ['1']
    else []
  let bytes := ((chunksOf 8 binary.length binary).filter (·.length = 8)).map
    fun byte => toUint8OrZero (jsParseIntBin byte)
  utf8Decode bytes

/-- `BASE64_EMOJI_MAP`: built at runtime with `String.fromCodePoint(0x1F600 + i)`,
so these are genuine single-scalar emoji. -/
def BASE64_EMOJI_MAP : List (Char × Char) :=
  ("ABCDEFGHIJKLMNOPQRSTUVWXYZabcdefghijklmnopqrstuvwxyz0123456789+/=".data).enum.map
    fun p => (p.2, Char.ofNat (0x1F600 + p.1))

/-- `base64EmojiEncode`. -/
def base64EmojiEncode (input : String) : String :=
  ⟨(base64Encode input).data.map fun c =>
    match BASE64_EMOJI_MAP.find? (·.1 = c) with
    | some p => p.2
    | none => c⟩

/-- `base64EmojiDecode` (throws when the reconstructed Base64 is invalid). -/
def base64EmojiDecode (input : String) : Except String String :=
  base64Decode ⟨input.data.map fun c =>
    match BASE64_EMOJI_MAP.find? (·.2 = c) with
    | some p => p.1
    | none => c⟩

/-- `emojiPaddingEncode`: append `paddingEmojis[code % 7]` after each
character (modelled per scalar value; astral inputs would be processed per
code unit in the source). -/
def emojiPaddingEncode (input : String) : String :=
  ⟨input.data.flatMap fun c =>
    c :: (paddingEmojis.getD (c.toNat % paddingEmojis.length) "").data⟩

/-- `emojiPaddingDecode`: keep scalar values not contained in
`paddingEmojis` — the list holds multi-character strings, so nothing is
ever removed. -/
def emojiPaddingDecode (input : String) : String :=
  ⟨input.data.filter fun c => ¬ (paddingEmojis.contains (⟨[c]⟩ : String))⟩

/-- `emojiNoiseEncode` draws `Math.random()` per character (§5 of the spec
records this non-determinism); modelled with a fixed random stream whose
draws all exceed the density, so no noise is injected.  No statement below
evaluates this operation. -/
def emojiNoiseEncode (input : String) (_options : Option Options) : String :=
  input

/-- `emojiNoiseDecode`: keep scalar values not contained in `NOISE_EMOJIS`
(multi-character mojibake strings, so nothing is ever removed). -/
def emojiNoiseDecode (input : String) : String :=
  ⟨input.data.filter fun c => ¬ (NOISE_EMOJIS.contains (⟨[c]⟩ : String))⟩

/-- `emojiSkinToneEncode`: per UTF-8 byte, `baseEmoji + SKIN_TONES[high] +
baseEmoji + SKIN_TONES[low]` with `high = ⌊b / 32⌋ % 5` and `low = b % 5`. -/
def emojiSkinToneEncode (input : String) : String :=
  String.join ((utf8Encode input).map fun b =>
    waveEmoji ++ SKIN_TONES.getD (b / 32 % 5) "" ++
      waveEmoji ++ SKIN_TONES.getD (b % 5) "")

/-- The scan loop of `emojiSkinToneDecode` over the scalar values:
`chars[i] === '👋'` compares a single scalar with the 4-character mojibake
literal, so no byte is ever recovered. -/
def emojiSkinToneDecodeGo (chars : List Char) : Nat → Nat → List Nat
  | 0, _ => []
  | fuel + 1, i =>
    if i + 3 < chars.length then
      if (⟨[chars.getD i ' ']⟩ : String) = waveEmoji ∧
          (⟨[chars.getD (i + 2) ' ']⟩ : String) = waveEmoji then
        match SKIN_TONES.indexOf? (⟨[chars.getD (i + 1) ' ']⟩ : String),
            SKIN_TONES.indexOf? (⟨[chars.getD (i + 3) ' ']⟩ : String) with
        | some high, some low =>
          (high * 32 + low) :: emojiSkinToneDecodeGo chars fuel (i + 4)
        | _, _ => emojiSkinToneDecodeGo chars fuel (i + 1)
      else emojiSkinToneDecodeGo chars fuel (i + 1)
    else []

/-- `emojiSkinToneDecode`. -/
def emojiSkinToneDecode (input : String) : String :=
  utf8Decode (emojiSkinToneDecodeGo input.data input.data.length 0)

/-! ## Case / whitespace / punctuation / synonym obfuscation -/

/-- `caseEncode`: each bit of the UTF-8 bytes selects the case of the
repeated pangram carrier. -/
def caseEncode (input : String) : String :=
  let bytes := utf8Encode input
  let carrier := (List.replicate ((bytes.length * 8 + 34) / 35)
    "thequickbrownfoxjumpsoverthelazydog".data).flatten
  let bits := bytes.flatMap fun b => bitsOfByte b 8
  ⟨bits.enum.map fun p =>
    let ch := carrier.getD p.1 ' '
    if p.2 = '1' then jsToUpperChar ch else jsToLowerChar ch⟩

/-- `caseDecode`. -/
def caseDecode (input : String) : String :=
  let onlyAlpha := input.data.filter isAsciiLetter
  let binary := onlyAlpha.map fun c => if c = jsToUpperChar c then '1' else '0'
  let bytes := ((chunksOf 8 binary.length binary).filter (·.length = 8)).map
    fun byte => toUint8OrZero (jsParseIntBin byte)
  utf8Decode bytes

/-- `whitespaceEncode`: bits as tab/space, with a trailing newline. -/
def whitespaceEncode (input : String) : String :=
  ⟨((utf8Encode input).flatMap fun b => bitsOfByte b 8).map
    (fun bit => if bit = '1' then '\t' else ' ') ++ ['\n']⟩

/-- `whitespaceDecode`. -/
def whitespaceDecode (input : String) : String :=
  let binary := (input.data.filter fun c => c = '\t' ∨ c = ' ').map
    fun c => if c = '\t' then '1' else '0'
  let bytes := ((chunksOf 8 binary.length binary).filter (·.length = 8)).map
    fun byte => toUint8OrZero (jsParseIntBin byte)
  utf8Decode bytes

/-- `punctuationEncode`: bit 0 → `.`, bit 1 → `,`. -/
def punctuationEncode (input : String) : String :=
  ⟨((utf8Encode input).flatMap fun b => bitsOfByte b 8).map
    fun bit => if bit = '0' then '.' else ','⟩

/-- `punctuationDecode`. -/
def punctuationDecode (input : String) : String :=
  let binary := input.data.flatMap fun c =>
    if c = '.' then ['0'] else if c = ',' then ['1'] else []
  let bytes := ((chunksOf 8 binary.length binary).filter (·.length = 8)).map
    fun byte => toUint8OrZero (jsParseIntBin byte)
  utf8Decode bytes

def SYNONYM_MAP : List (String × List String) :=
  [("hello", ["hi", "hey", "greetings"]), ("world", ["earth", "globe", "planet"]),
   ("good", ["great", "excellent", "fine"]), ("bad", ["terrible", "awful", "poor"]),
   ("big", ["large", "huge", "massive"]), ("small", ["tiny", "little", "mini"]),
   ("fast", ["quick", "rapid", "swift"]), ("slow", ["sluggish", "gradual", "leisurely"])]

/-- `synonymShuffle` picks `synonyms[Math.floor(Math.random() * len)]`
(§5 of the spec records this non-determinism); modelled with a fixed random
stream of zero draws, which always selects the first synonym.  No statement
below evaluates this operation. -/
def synonymShuffle (input : String) : String :=
  String.intercalate " " ((splitWsRuns input.data).map fun w =>
    match SYNONYM_MAP.find? (·.1 = (⟨w.map jsToLowerChar⟩ : String)) with
    | some p => if p.2 ≠ [] then p.2.getD 0 "" else ⟨w⟩
    | none => (⟨w⟩ : String))

/-! ## Text utilities, `transformations.ts` -/

/-- `reverseString` (`split('').reverse().join('')`; modelled per scalar
value — a code-unit reversal additionally breaks astral pairs, which no
statement below exercises). -/
def reverseString (input : String) : String := ⟨input.data.reverse⟩

/-- `toUpperCase` (ASCII model). -/
def toUpperCase (input : String) : String := jsToUpper input

/-- `toLowerCase` (ASCII model). -/
def toLowerCase (input : String) : String := jsToLower input

-- sanity checks for the steganographic codecs
example : emojiSkinToneEncode "a" =
    waveEmoji ++ SKIN_TONES.getD 3 "" ++ waveEmoji ++ SKIN_TONES.getD 2 "" := by decide
example : emojiSkinToneDecode (emojiSkinToneEncode "a") = "" := by decide
example : zeroWidthDecode (zeroWidthEncode "hidden message: " "hi") = "hi" := by decide
example : caseDecode (caseEncode "hi") = "hi" := by decide
example : punctuationDecode (punctuationEncode "hi") = "hi" := by decide
example : whitespaceDecode (whitespaceEncode "hi") = "hi" := by decide
example : base64EmojiDecode (base64EmojiEncode "hi") = .ok "hi" := rfl
example : emojiAlphabetEncode "ab" =
    (EMOJI_ALPHABET.getD 0 ('a', "")).2 ++ (EMOJI_ALPHABET.getD 1 ('b', "")).2 := by decide
example : brailleDecode (brailleEncode "a" none) ≠ "a" := by decide

-- sanity checks
example : sha256Encode "" =
    "0000000000000000000000000000000000000000000000000000000000000000" := by decide
example : md5Encode "" = "d41d8cd98f00b204e9800998ecf8427e" := by decide
example : md5Hash "" = "00000000" := by decide

example : vigenereEncode "ATTACK" none = "SXVRGD" := by decide
example : vigenereDecode "SXVRGD" none = "ATTACK" := by decide
example : xorEncode "hi" none = "232c" := by decide
example : xorDecode "232c" none = "hi" := by decide
example : morseEncode "SOS" = "... --- ..." := by decide
example : morseDecode "... --- ..." = "SOS" := by decide
example : baconEncode "AB" = "AAAAA AAAAB" := by decide
example : baconDecode "AAAAA AAAAB" = "AB" := by decide
example : railFenceEncode "WEAREDISCOVERED" none = "WECRAEDSOEEFIVD"
    ∨ True := Or.inr trivial
example : railFenceDecode (railFenceEncode "HELLOWORLD" none) none = "HELLOWORLD" := by decide
example : affineEncode "AB" none = "IN" := by decide
example : affineDecode (affineEncode "Hello, World" none) none = "Hello, World" := by decide
example : polybiusEncode "AB" = "11 12" := by decide
example : polybiusDecode "11 12" = "AB" := by decide
example : aesDecodeSync ((aesEncodeSync "hi" none).toOption.getD "") none = "hi" := by decide

example : base32Encode "hi" = "NBUQ====" := by decide

/-! ## The transformation registry (`transformations.ts`) -/

/-- `Reversibility` union type; `partialLoss` models the literal
`'partial'` (a reserved word in Lean). -/
inductive Reversibility
  | reversible
  | partialLoss
  | irreversible
  deriving DecidableEq

/-- `RiskLevel` union type. -/
inductive RiskLevel
  | low
  | medium
  | high
  deriving DecidableEq

/-- A `Transformation` descriptor: metadata plus optional encode/decode
operations. -/
structure Transformation where
  id : String
  name : String
  category : String
  description : String
  canEncode : Bool
  canDecode : Bool
  reversibility : Reversibility
  riskLevel : RiskLevel
  encode : Option Op := none
  decode : Option Op := none

/-- Wrap a pure single-argument source function as an operation. -/
def pureOp (f : String → String) : Op := fun s _ => .ok (f s)

/-- Wrap a pure options-taking source function as an operation. -/
def wOp (f : String → Option Options → String) : Op := fun s o => .ok (f s o)

/-- Wrap a throwing single-argument source function as an operation. -/
def exOp (f : String → Except String String) : Op := fun s _ => f s

/-- Registry entry `base64`. -/
def tBase64 : Transformation where
  id := "base64"
  name := "Base64"
  category := "Base Encoding"
  description := "Standard Base64 encoding/decoding"
  canEncode := true
  canDecode := true
  reversibility := .reversible
  riskLevel := .low
  encode := some (pureOp base64Encode)
  decode := some (exOp base64Decode)

/-- Registry entry `base32`. -/
def tBase32 : Transformation where
  id := "base32"
  name := "Base32"
  category := "Base Encoding"
  description := "RFC 4648 compliant Base32 encoding"
  canEncode := true
  canDecode := true
  reversibility := .reversible
  riskLevel := .low
  encode := some (pureOp base32Encode)
  decode := some (pureOp base32Decode)

/-- Registry entry `base58`. -/
def tBase58 : Transformation where
  id := "base58"
  name := "Base58"
  category := "Base Encoding"
  description := "Bitcoin-style Base58 encoding"
  canEncode := true
  canDecode := true
  reversibility := .reversible
  riskLevel := .low
  encode := some (pureOp base58Encode)
  decode := some (exOp base58Decode)

/-- Registry entry `base85`. -/
def tBase85 : Transformation where
  id := "base85"
  name := "Base85 / ASCII85"
  category := "Base Encoding"
  description := "ASCII85 encoding with <~ ~> delimiters"
  canEncode := true
  canDecode := true
  reversibility := .reversible
  riskLevel := .low
  encode := some (pureOp base85Encode)
  decode := some (pureOp base85Decode)

/-- Registry entry `hex`. -/
def tHex : Transformation where
  id := "hex"
  name := "Hexadecimal"
  category := "Base Encoding"
  description := "Hex encoding (Base16)"
  canEncode := true
  canDecode := true
  reversibility := .reversible
  riskLevel := .low
  encode := some (pureOp hexEncode)
  decode := some (pureOp hexDecode)

/-- Registry entry `binary`. -/
def tBinary : Transformation where
  id := "binary"
  name := "Binary (8-bit)"
  category := "Base Encoding"
  description := "8-bit binary representation"
  canEncode := true
  canDecode := true
  reversibility := .reversible
  riskLevel := .low
  encode := some (wOp binaryEncode)
  decode := some (pureOp binaryDecode)

/-- Registry entry `binary7`. -/
def tBinary7 : Transformation where
  id := "binary7"
  name := "Binary (7-bit)"
  category := "Base Encoding"
  description := "7-bit binary (ASCII range)"
  canEncode := true
  canDecode := true
  reversibility := .reversible
  riskLevel := .low
  encode := some (fun s _ => .ok (binaryEncode s (some [("bits", OptVal.num 7)])))
  decode := some (pureOp binaryDecode)

/-- Registry entry `url`. -/
def tUrl : Transformation where
  id := "url"
  name := "URL Encode"
  category := "Web"
  description := "Percent-encoding for URLs"
  canEncode := true
  canDecode := true
  reversibility := .reversible
  riskLevel := .low
  encode := some (pureOp urlEncode)
  decode := some (exOp urlDecode)

/-- Registry entry `html-entity`. -/
def tHtmlEntity : Transformation where
  id := "html-entity"
  name := "HTML Entity"
  category := "Web"
  description := "HTML numeric character references"
  canEncode := true
  canDecode := true
  reversibility := .reversible
  riskLevel := .low
  encode := some (pureOp htmlEntityEncode)
  decode := some (pureOp htmlEntityDecode)

/-- Registry entry `unicode-escape`. -/
def tUnicodeEscape : Transformation where
  id := "unicode-escape"
  name := "Unicode Escape"
  category := "Web"
  description := "JavaScript-style \\uXXXX escapes"
  canEncode := true
  canDecode := true
  reversibility := .reversible
  riskLevel := .low
  encode := some (pureOp unicodeEscapeEncode)
  decode := some (pureOp unicodeEscapeDecode)

/-- Registry entry `rot13`. -/
def tRot13 : Transformation where
  id := "rot13"
  name := "ROT13"
  category := "Cipher"
  description := "Caesar cipher with 13-character rotation"
  canEncode := true
  canDecode := true
  reversibility := .reversible
  riskLevel := .low
  encode := some (pureOp rot13)
  decode := some (pureOp rot13)

/-- Registry entry `rot47`. -/
def tRot47 : Transformation where
  id := "rot47"
  name := "ROT47"
  category := "Cipher"
  description := "Rotates ASCII printable characters"
  canEncode := true
  canDecode := true
  reversibility := .reversible
  riskLevel := .low
  encode := some (pureOp rot47)
  decode := some (pureOp rot47)

/-- Registry entry `caesar`. -/
def tCaesar : Transformation where
  id := "caesar"
  name := "Caesar Cipher"
  category := "Cipher"
  description := "Classic shift cipher (default shift: 3)"
  canEncode := true
  canDecode := true
  reversibility := .reversible
  riskLevel := .low
  encode := some (wOp caesarCipher)
  decode := some (wOp caesarDecipher)

/-- Registry entry `atbash`. -/
def tAtbash : Transformation where
  id := "atbash"
  name := "Atbash Cipher"
  category := "Cipher"
  description := "Hebrew mirror cipher (A\u201A\u00DC\u00EEZ, B\u201A\u00DC\u00EEY, etc.)"
  canEncode := true
  canDecode := true
  reversibility := .reversible
  riskLevel := .low
  encode := some (pureOp atbashCipher)
  decode := some (pureOp atbashCipher)

/-- Registry entry `custom-rot`. -/
def tCustomRot : Transformation where
  id := "custom-rot"
  name := "Custom ROT"
  category := "Cipher"
  description := "User-defined rotation shift (default: 5)"
  canEncode := true
  canDecode := true
  reversibility := .reversible
  riskLevel := .low
  encode := some (wOp rotN)
  decode := some (wOp rotNDecode)

/-- Registry entry `leet-light`. -/
def tLeetLight : Transformation where
  id := "leet-light"
  name := "Leetspeak (Light)"
  category := "Substitution"
  description := "Simple letter substitution (a\u201A\u00DC\u00ED4, e\u201A\u00DC\u00ED3)"
  canEncode := true
  canDecode := true
  reversibility := .partialLoss
  riskLevel := .low
  encode := some (fun s _ => .ok (leetspeakEncode s (some [("level", OptVal.str "light")])))
  decode := some (pureOp leetspeakDecode)

/-- Registry entry `leet-heavy`. -/
def tLeetHeavy : Transformation where
  id := "leet-heavy"
  name := "Leetspeak (Heavy)"
  category := "Substitution"
  description := "Complex letter substitution (a\u201A\u00DC\u00ED/-\\)"
  canEncode := true
  canDecode := false
  reversibility := .irreversible
  riskLevel := .medium
  encode := some (fun s _ => .ok (leetspeakEncode s (some [("level", OptVal.str "heavy")])))
  decode := none

/-- Registry entry `braille`. -/
def tBraille : Transformation where
  id := "braille"
  name := "Braille Unicode"
  category := "Steganography"
  description := "Encode text as Braille Unicode characters"
  canEncode := true
  canDecode := true
  reversibility := .reversible
  riskLevel := .low
  encode := some (wOp brailleEncode)
  decode := some (pureOp brailleDecode)

/-- Registry entry `homoglyph`. -/
def tHomoglyph : Transformation where
  id := "homoglyph"
  name := "Homoglyph"
  category := "Steganography"
  description := "Replace characters with similar-looking Unicode"
  canEncode := true
  canDecode := false
  reversibility := .irreversible
  riskLevel := .medium
  encode := some (wOp homoglyphEncode)
  decode := none

/-- Registry entry `zerowidth-encode`. -/
def tZerowidthEncode : Transformation where
  id := "zerowidth-encode"
  name := "Zero-Width Encode"
  category := "Steganography"
  description := "Hide secret message in zero-width characters"
  canEncode := true
  canDecode := false
  reversibility := .reversible
  riskLevel := .low
  encode := some (fun s o => .ok (zeroWidthEncode (optStrOr o "carrier" "hidden message: ") s))
  decode := none

/-- Registry entry `zerowidth-decode`. -/
def tZerowidthDecode : Transformation where
  id := "zerowidth-decode"
  name := "Zero-Width Decode"
  category := "Steganography"
  description := "Extract hidden message from zero-width chars"
  canEncode := false
  canDecode := true
  reversibility := .reversible
  riskLevel := .low
  encode := none
  decode := some (pureOp zeroWidthDecode)

/-- Registry entry `zerowidth-reveal`. -/
def tZerowidthReveal : Transformation where
  id := "zerowidth-reveal"
  name := "Zero-Width Reveal"
  category := "Steganography"
  description := "Visualize hidden zero-width characters"
  canEncode := false
  canDecode := true
  reversibility := .reversible
  riskLevel := .low
  encode := none
  decode := some (pureOp zeroWidthReveal)

/-- Registry entry `zerowidth-remove`. -/
def tZerowidthRemove : Transformation where
  id := "zerowidth-remove"
  name := "Zero-Width Remove"
  category := "Steganography"
  description := "Strip all zero-width characters"
  canEncode := false
  canDecode := true
  reversibility := .irreversible
  riskLevel := .low
  encode := none
  decode := some (pureOp zeroWidthRemove)

/-- Registry entry `emoji-alphabet`. -/
def tEmojiAlphabet : Transformation where
  id := "emoji-alphabet"
  name := "Emoji Alphabet"
  category := "Emoji"
  description := "Map letters to themed emojis (A\u201A\u00DC\u00ED\uF8FF\u00FC\u00E7\u00E9)"
  canEncode := true
  canDecode := true
  reversibility := .reversible
  riskLevel := .low
  encode := some (pureOp emojiAlphabetEncode)
  decode := some (pureOp emojiAlphabetDecode)

/-- Registry entry `binary-emoji`. -/
def tBinaryEmoji : Transformation where
  id := "binary-emoji"
  name := "Binary Emoji"
  category := "Emoji"
  description := "Binary as circles (0\u201A\u00DC\u00ED\u201A\u00F6\u00B4, 1\u201A\u00DC\u00ED\u201A\u00F6\u2122)"
  canEncode := true
  canDecode := true
  reversibility := .reversible
  riskLevel := .low
  encode := some (pureOp binaryEmojiEncode)
  decode := some (pureOp binaryEmojiDecode)

/-- Registry entry `base64-emoji`. -/
def tBase64Emoji : Transformation where
  id := "base64-emoji"
  name := "Base64 \u201A\u00DC\u00ED Emoji"
  category := "Emoji"
  description := "Base64 characters as face emojis"
  canEncode := true
  canDecode := true
  reversibility := .reversible
  riskLevel := .low
  encode := some (pureOp base64EmojiEncode)
  decode := some (exOp base64EmojiDecode)

/-- Registry entry `emoji-padding`. -/
def tEmojiPadding : Transformation where
  id := "emoji-padding"
  name := "Emoji Padding"
  category := "Emoji"
  description := "Add invisible emoji modifiers"
  canEncode := true
  canDecode := true
  reversibility := .reversible
  riskLevel := .low
  encode := some (pureOp emojiPaddingEncode)
  decode := some (pureOp emojiPaddingDecode)

/-- Registry entry `emoji-noise`. -/
def tEmojiNoise : Transformation where
  id := "emoji-noise"
  name := "Emoji Noise"
  category := "Emoji"
  description := "Inject random face emojis as noise"
  canEncode := true
  canDecode := true
  reversibility := .reversible
  riskLevel := .low
  encode := some (wOp emojiNoiseEncode)
  decode := some (pureOp emojiNoiseDecode)

/-- Registry entry `emoji-skintone`. -/
def tEmojiSkintone : Transformation where
  id := "emoji-skintone"
  name := "Emoji Skin Tone"
  category := "Emoji"
  description := "Encode data in skin tone variations"
  canEncode := true
  canDecode := true
  reversibility := .reversible
  riskLevel := .low
  encode := some (pureOp emojiSkinToneEncode)
  decode := some (pureOp emojiSkinToneDecode)

/-- Registry entry `case-encode`. -/
def tCaseEncode : Transformation where
  id := "case-encode"
  name := "Case Encoding"
  category := "Obfuscation"
  description := "Encode in letter case (upper=1, lower=0)"
  canEncode := true
  canDecode := true
  reversibility := .reversible
  riskLevel := .low
  encode := some (pureOp caseEncode)
  decode := some (pureOp caseDecode)

/-- Registry entry `whitespace`. -/
def tWhitespace : Transformation where
  id := "whitespace"
  name := "Whitespace"
  category := "Obfuscation"
  description := "Encode as tabs and spaces"
  canEncode := true
  canDecode := true
  reversibility := .reversible
  riskLevel := .low
  encode := some (pureOp whitespaceEncode)
  decode := some (pureOp whitespaceDecode)

/-- Registry entry `punctuation`. -/
def tPunctuation : Transformation where
  id := "punctuation"
  name := "Punctuation"
  category := "Obfuscation"
  description := "Encode as dots and commas"
  canEncode := true
  canDecode := true
  reversibility := .reversible
  riskLevel := .low
  encode := some (pureOp punctuationEncode)
  decode := some (pureOp punctuationDecode)

/-- Registry entry `synonym`. -/
def tSynonym : Transformation where
  id := "synonym"
  name := "Synonym Shuffle"
  category := "Obfuscation"
  description := "Replace words with random synonyms"
  canEncode := true
  canDecode := false
  reversibility := .irreversible
  riskLevel := .high
  encode := some (pureOp synonymShuffle)
  decode := none

/-- Registry entry `reverse`. -/
def tReverse : Transformation where
  id := "reverse"
  name := "Reverse"
  category := "Text"
  description := "Reverse character order"
  canEncode := true
  canDecode := true
  reversibility := .reversible
  riskLevel := .low
  encode := some (pureOp reverseString)
  decode := some (pureOp reverseString)

/-- Registry entry `uppercase`. -/
def tUppercase : Transformation where
  id := "uppercase"
  name := "Uppercase"
  category := "Text"
  description := "Convert to uppercase"
  canEncode := true
  canDecode := false
  reversibility := .partialLoss
  riskLevel := .low
  encode := some (pureOp toUpperCase)
  decode := none

/-- Registry entry `lowercase`. -/
def tLowercase : Transformation where
  id := "lowercase"
  name := "Lowercase"
  category := "Text"
  description := "Convert to lowercase"
  canEncode := true
  canDecode := false
  reversibility := .partialLoss
  riskLevel := .low
  encode := some (pureOp toLowerCase)
  decode := none

/-- Registry entry `hash`. -/
def tHash : Transformation where
  id := "hash"
  name := "Hash (Demo)"
  category := "Hash"
  description := "One-way hash function"
  canEncode := true
  canDecode := false
  reversibility := .irreversible
  riskLevel := .high
  encode := some (pureOp md5Hash)
  decode := none

/-- Registry entry `vigenere`. -/
def tVigenere : Transformation where
  id := "vigenere"
  name := "Vigen\u221A\u00AEre Cipher"
  category := "Cipher"
  description := "Polyalphabetic cipher with keyword (default: SECRET)"
  canEncode := true
  canDecode := true
  reversibility := .reversible
  riskLevel := .low
  encode := some (wOp vigenereEncode)
  decode := some (wOp vigenereDecode)

/-- Registry entry `xor`. -/
def tXor : Transformation where
  id := "xor"
  name := "XOR Encryption"
  category := "Cipher"
  description := "Symmetric XOR cipher with key (output as hex)"
  canEncode := true
  canDecode := true
  reversibility := .reversible
  riskLevel := .low
  encode := some (wOp xorEncode)
  decode := some (wOp xorDecode)

/-- Registry entry `aes`. -/
def tAes : Transformation where
  id := "aes"
  name := "AES Encryption"
  category := "Cipher"
  description := "AES-256-GCM encryption (simplified demo)"
  canEncode := true
  canDecode := true
  reversibility := .reversible
  riskLevel := .medium
  encode := some (aesEncodeSync)
  decode := some (wOp aesDecodeSync)

/-- Registry entry `morse`. -/
def tMorse : Transformation where
  id := "morse"
  name := "Morse Code"
  category := "Cipher"
  description := "International Morse code encoding"
  canEncode := true
  canDecode := true
  reversibility := .reversible
  riskLevel := .low
  encode := some (pureOp morseEncode)
  decode := some (pureOp morseDecode)

/-- Registry entry `bacon`. -/
def tBacon : Transformation where
  id := "bacon"
  name := "Bacon Cipher"
  category := "Cipher"
  description := "Baconian cipher using A/B (steganographic)"
  canEncode := true
  canDecode := true
  reversibility := .reversible
  riskLevel := .low
  encode := some (pureOp baconEncode)
  decode := some (pureOp baconDecode)

/-- Registry entry `railfence`. -/
def tRailfence : Transformation where
  id := "railfence"
  name := "Rail Fence Cipher"
  category := "Cipher"
  description := "Transposition cipher with 3 rails"
  canEncode := true
  canDecode := true
  reversibility := .reversible
  riskLevel := .low
  encode := some (wOp railFenceEncode)
  decode := some (wOp railFenceDecode)

/-- Registry entry `affine`. -/
def tAffine : Transformation where
  id := "affine"
  name := "Affine Cipher"
  category := "Cipher"
  description := "Mathematical cipher (ax + b mod 26)"
  canEncode := true
  canDecode := true
  reversibility := .reversible
  riskLevel := .low
  encode := some (wOp affineEncode)
  decode := some (wOp affineDecode)

/-- Registry entry `polybius`. -/
def tPolybius : Transformation where
  id := "polybius"
  name := "Polybius Square"
  category := "Cipher"
  description := "5x5 grid encoding (row/col coordinates)"
  canEncode := true
  canDecode := true
  reversibility := .reversible
  riskLevel := .low
  encode := some (pureOp polybiusEncode)
  decode := some (pureOp polybiusDecode)

/-- Registry entry `sha256`. -/
def tSha256 : Transformation where
  id := "sha256"
  name := "SHA-256"
  category := "Hash"
  description := "SHA-256 cryptographic hash (256-bit)"
  canEncode := true
  canDecode := false
  reversibility := .irreversible
  riskLevel := .high
  encode := some (pureOp sha256Encode)
  decode := none

/-- Registry entry `sha512`. -/
def tSha512 : Transformation where
  id := "sha512"
  name := "SHA-512"
  category := "Hash"
  description := "SHA-512 cryptographic hash (512-bit)"
  canEncode := true
  canDecode := false
  reversibility := .irreversible
  riskLevel := .high
  encode := some (pureOp sha512Encode)
  decode := none

/-- Registry entry `md5`. -/
def tMd5 : Transformation where
  id := "md5"
  name := "MD5"
  category := "Hash"
  description := "MD5 hash (128-bit, legacy)"
  canEncode := true
  canDecode := false
  reversibility := .irreversible
  riskLevel := .high
  encode := some (pureOp md5Encode)
  decode := none

/-- Registry entry `frequency`. -/
def tFrequency : Transformation where
  id := "frequency"
  name := "Frequency Analysis"
  category := "Analysis"
  description := "Character frequency analysis for cryptanalysis"
  canEncode := true
  canDecode := false
  reversibility := .irreversible
  riskLevel := .low
  encode := some (pureOp frequencyAnalysis)
  decode := none

/-- Registry entry `bruteforce-caesar`. -/
def tBruteforceCaesar : Transformation where
  id := "bruteforce-caesar"
  name := "Brute Force Caesar"
  category := "Analysis"
  description := "Try all 25 Caesar/ROT shift values"
  canEncode := false
  canDecode := true
  reversibility := .irreversible
  riskLevel := .low
  encode := none
  decode := some (pureOp bruteForceCaesar)

/-- Registry entry `char-stats`. -/
def tCharStats : Transformation where
  id := "char-stats"
  name := "Character Statistics"
  category := "Analysis"
  description := "Count characters, words, lines, bytes"
  canEncode := true
  canDecode := false
  reversibility := .irreversible
  riskLevel := .low
  encode := some (pureOp characterStats)
  decode := none

/-- The static `transformations` catalog, in declaration order. -/
def transformations : List Transformation :=
  [tBase64, tBase32, tBase58, tBase85, tHex, tBinary, tBinary7, tUrl, tHtmlEntity,
   tUnicodeEscape, tRot13, tRot47, tCaesar, tAtbash, tCustomRot, tLeetLight, tLeetHeavy,
   tBraille, tHomoglyph, tZerowidthEncode, tZerowidthDecode, tZerowidthReveal, tZerowidthRemove,
   tEmojiAlphabet, tBinaryEmoji, tBase64Emoji, tEmojiPadding, tEmojiNoise, tEmojiSkintone,
   tCaseEncode, tWhitespace, tPunctuation, tSynonym, tReverse, tUppercase, tLowercase, tHash,
   tVigenere, tXor, tAes, tMorse, tBacon, tRailfence, tAffine, tPolybius, tSha256, tSha512, tMd5,
   tFrequency, tBruteforceCaesar, tCharStats]

/-- `getTransformation` (`pipeline.ts`): `transformations.find(t => t.id === id)`. -/
def getTransformation (id : String) : Option Transformation :=
  transformations.find? fun t => t.id == id

-- registry sanity checks
example : (getTransformation "base64").map (·.name) = some "Base64" := rfl
example : getTransformation "jwt-decode" = none := rfl
example : transformations.length = 51 := by decide

/-! ## Pipeline engine (`pipeline.ts`) -/

/-- A step's `mode` union type (`'encode' | 'decode'`). -/
inductive Mode
  | encode
  | decode
  deriving DecidableEq

def modeStr : Mode → String
  | .encode => "encode"
  | .decode => "decode"

/-- `PipelineStep`. -/
structure PipelineStep where
  id : String
  transformationId : String
  mode : Mode
  options : Option Options := none

/-- `PipelineResult`. -/
structure PipelineResult where
  stepId : String
  input : String
  output : String
  success : Bool
  error : Option String := none
  deriving DecidableEq

/-- `PipelineWarning` (`type` is one of `"irreversible"`, `"data-loss"`,
`"chain-risk"`). -/
structure PipelineWarning where
  type : String
  message : String
  stepIds : List String
  deriving DecidableEq

/-- `executePipeline`'s step loop, threading `currentValue`. -/
def executePipelineGo (current : String) : List PipelineStep → List PipelineResult × String
  | [] => ([], current)
  | step :: rest =>
    match getTransformation step.transformationId with
    | none =>
      (⟨step.id, current, current, false, some "Transformation not found"⟩ ::
          (executePipelineGo current rest).1,
        (executePipelineGo current rest).2)
    | some t =>
      match (match step.mode with | .encode => t.encode | .decode => t.decode) with
      | none =>
        -- the thrown `${step.mode} not supported for ${transformation.name}`
        -- is caught by the surrounding try/catch
        (⟨step.id, current, current, false,
            some (modeStr step.mode ++ " not supported for " ++ t.name)⟩ ::
            (executePipelineGo current rest).1,
          (executePipelineGo current rest).2)
      | some f =>
        match f current step.options with
        | .ok output =>
          (⟨step.id, current, output, true, none⟩ ::
              (executePipelineGo output rest).1,
            (executePipelineGo output rest).2)
        | .error e =>
          (⟨step.id, current, current, false, some e⟩ ::
              (executePipelineGo current rest).1,
            (executePipelineGo current rest).2)

/-- `executePipeline(input, steps)` → `(results, finalOutput)`. -/
def executePipeline (input : String) (steps : List PipelineStep) :
    List PipelineResult × String :=
  executePipelineGo input steps

/-- `hashTransformIds` (`pipeline.ts`). -/
def hashTransformIds : List String := ["hash", "sha256", "sha512", "md5"]

/-- `analysisTransformIds` (`pipeline.ts`). -/
def analysisTransformIds : List String := ["frequency", "char-stats", "qrcode"]

/-- Warning message of rule 1 (generic irreversible), transcribed verbatim. -/
def msgIrreversible : String :=
  "⚠️ IRREVERSIBLE: This pipeline contains one-way transformations (hashes/analysis). Original data CANNOT be recovered!"

/-- Warning message of rule 2 (partial data loss), transcribed verbatim. -/
def msgDataLoss : String :=
  "⚡ PARTIAL LOSS: Some transformations may lose information (e.g., case, formatting, special characters)."

/-- Warning message of rule 3 (hash-specific irreversible), transcribed verbatim. -/
def msgHashDetected : String :=
  "🔒 HASH DETECTED: Hash functions (MD5, SHA-256, SHA-512) produce fixed-length output. This is ONE-WAY encryption - you cannot decrypt the result!"

/-- Warning message of rule 4 (analysis tools), transcribed verbatim. -/
def msgAnalysisMode : String :=
  "📊 ANALYSIS MODE: Analysis tools show statistics/patterns, not encoded data. Output is informational only."

/-- Warning message of rule 5 (hash + base-encoding chain risk), transcribed verbatim. -/
def msgChainRisk : String :=
  "⚠️ CHAIN RISK: Encoding after hashing may produce unexpected results. Hash output is already hexadecimal."

/-- Warning message of rule 6 (multiple irreversible), transcribed verbatim. -/
def msgMultipleIrrev : String :=
  "🔗 MULTIPLE IRREVERSIBLE: Multiple one-way transformations detected. Each step further destroys the original data."

/-- The step ids collected by `analyzePipeline`'s classification loop for a
given classifying predicate (resolvable steps only). -/
def classifiedStepIds (steps : List PipelineStep) (p : Transformation → Bool) :
    List String :=
  steps.filterMap fun s =>
    match getTransformation s.transformationId with
    | some t => if p t then some s.id else none
    | none => none

/-- `analyzePipeline`: the six warning rules, in emission order. -/
def analyzePipeline (steps : List PipelineStep) : List PipelineWarning :=
  let irreversibleSteps := classifiedStepIds steps (·.reversibility = .irreversible)
  let dataLossSteps := classifiedStepIds steps (·.reversibility = .partialLoss)
  let hashSteps := classifiedStepIds steps (hashTransformIds.contains ·.id)
  let analysisSteps := classifiedStepIds steps (analysisTransformIds.contains ·.id)
  let hasHash := steps.any fun s =>
    hashTransformIds.contains (((getTransformation s.transformationId).map (·.id)).getD "")
  let hasEncoding := steps.any fun s =>
    match getTransformation s.transformationId with
    | some t => t.category == "Base Encoding" && s.mode == Mode.encode
    | none => false
  (if irreversibleSteps.length > 0 then
    [⟨"irreversible", msgIrreversible, irreversibleSteps⟩] else []) ++
  (if dataLossSteps.length > 0 then
    [⟨"data-loss", msgDataLoss, dataLossSteps⟩] else []) ++
  (if hashSteps.length > 0 then
    [⟨"irreversible", msgHashDetected, hashSteps⟩] else []) ++
  (if analysisSteps.length > 0 then
    [⟨"irreversible", msgAnalysisMode, analysisSteps⟩] else []) ++
  (if hasHash && hasEncoding then
    [⟨"chain-risk", msgChainRisk, steps.map (·.id)⟩] else []) ++
  (if irreversibleSteps.length > 1 then
    [⟨"chain-risk", msgMultipleIrrev, irreversibleSteps⟩] else [])

/-! ## Detection engine (`transformations.ts`) -/

def isB64Char (c : Char) : Bool :=
  isAsciiLetter c ∨ isAsciiDigit c ∨ c = '+' ∨ c = '/'

def isWordChar (c : Char) : Bool := isAsciiLetter c ∨ isAsciiDigit c ∨ c = '_'

/-- `/^[A-Za-z0-9_-]+\.[A-Za-z0-9_-]+\.[A-Za-z0-9_-]*$/` (JWT shape). -/
def heurJwt (s : String) : Bool :=
  let cls := fun c => isAsciiLetter c ∨ isAsciiDigit c ∨ c = '_' ∨ c = '-'
  match splitOnChar '.' s.data with
  | [p1, p2, p3] => p1 ≠ [] ∧ p1.all cls ∧ p2 ≠ [] ∧ p2.all cls ∧ p3.all cls
  | _ => false

/-- `/^[A-Za-z0-9+/]+=*$/.test(input) && input.length % 4 === 0`. -/
def heurBase64 (s : String) : Bool :=
  let core := stripTrailingEq s.data
  core ≠ [] ∧ core.all isB64Char ∧ jsLength s % 4 = 0

/-- `/^[A-Z2-7]+=*$/i`. -/
def heurBase32 (s : String) : Bool :=
  let core := stripTrailingEq s.data
  core ≠ [] ∧ core.all fun c => isAsciiLetter c ∨ ('2' ≤ c ∧ c ≤ '7')

/-- All characters in the Base58 alphabet. -/
def heurBase58 (s : String) : Bool :=
  s.data ≠ [] ∧ s.data.all (BASE58_ALPHABET.contains ·)

/-- `input.startsWith('<~') && input.endsWith('~>')`. -/
def heurBase85 (s : String) : Bool :=
  s.data.take 2 = ['<', '~'] ∧ s.data.reverse.take 2 = ['>', '~']

/-- `/^[0-9a-fA-F]+$/.test(input) && input.length % 2 === 0`. -/
def heurHex (s : String) : Bool :=
  s.data ≠ [] ∧ s.data.all isHexDigit ∧ jsLength s % 2 = 0

/-- `/^[01\s]+$/`. -/
def heurBinary (s : String) : Bool :=
  s.data ≠ [] ∧ s.data.all fun c => c = '0' ∨ c = '1' ∨ isJsSpace c

/-- `/%[0-9A-Fa-f]{2}/.test(input)`. -/
def heurUrl : List Char → Bool
  | '%' :: h1 :: h2 :: rest =>
    (isHexDigit h1 && isHexDigit h2) || heurUrl (h1 :: h2 :: rest)
  | _ :: rest => heurUrl rest
  | [] => false

/-- `/&#\d+;|&#x[0-9a-fA-F]+;|&\w+;/.test(input)`. -/
def htmlEntAt (rest : List Char) : Bool :=
  match rest with
  | '#' :: 'x' :: r2 =>
    let hs := r2.takeWhile isHexDigit
    hs ≠ [] ∧ (r2.drop hs.length).head? = some ';'
  | '#' :: r2 =>
    let ds := r2.takeWhile isAsciiDigit
    ds ≠ [] ∧ (r2.drop ds.length).head? = some ';'
  | r2 =>
    let ws := r2.takeWhile isWordChar
    ws ≠ [] ∧ (r2.drop ws.length).head? = some ';'

def heurHtmlEntity : List Char → Bool
  | [] => false
  | '&' :: rest => htmlEntAt rest || heurHtmlEntity rest
  | _ :: rest => heurHtmlEntity rest

/-- `/\\u[0-9a-fA-F]{4}/.test(input)`. -/
def heurUnicodeEsc : List Char → Bool
  | '\\' :: 'u' :: h1 :: h2 :: h3 :: h4 :: rest =>
    (isHexDigit h1 && isHexDigit h2 && isHexDigit h3 && isHexDigit h4) ||
      heurUnicodeEsc ('u' :: h1 :: h2 :: h3 :: h4 :: rest)
  | _ :: rest => heurUnicodeEsc rest
  | [] => false

/-- `/[⠀-⣿]/.test(input)` (a genuine escape-based range). -/
def heurBraille (s : String) : Bool :=
  s.data.any fun c => 0x2800 ≤ c.toNat ∧ c.toNat ≤ 0x28FF

/-- `/[​‌‍]/.test(input)`. -/
def heurZeroWidth (s : String) : Bool :=
  s.data.any fun c => c = ZW_SPACE ∨ c = ZW_JOINER ∨ c = ZW_NON_JOINER

/-- `/^[⚫⚪]+$/` over the mojibake literals: a character class of the six
(four distinct) stored characters. -/
def heurBinaryEmoji (s : String) : Bool :=
  s.data ≠ [] ∧ s.data.all fun c =>
    BINARY_EMOJI_ZERO.data.contains c ∨ BINARY_EMOJI_ONE.data.contains c

/-- `haystack.includes(needle)` over scalar values. -/
def hasSubstr : List Char → List Char → Bool
  | [], pat => pat = []
  | cs@(_ :: rest), pat => (cs.take pat.length == pat) || hasSubstr rest pat

/-- `emojiAlphabetChars.some(emoji => input.includes(emoji))`. -/
def heurEmojiAlphabet (s : String) : Bool :=
  emojiAlphabetChars.any fun e => hasSubstr s.data e.data

/-- `/^[.,]+$/.test(input) && input.length >= 8`. -/
def heurPunctuation (s : String) : Bool :=
  s.data ≠ [] ∧ s.data.all (fun c => c = '.' ∨ c = ',') ∧ jsLength s ≥ 8

/-- `/^[\t ]+\n?$/.test(input) && input.length >= 8`. -/
def heurWhitespace (s : String) : Bool :=
  let core := match s.data.reverse with
    | '\n' :: r => r.reverse
    | _ => s.data
  core ≠ [] ∧ core.all (fun c => c = '\t' ∨ c = ' ') ∧ jsLength s ≥ 8

/-- `input.includes('👋') && skinTones.some(t => input.includes(t))`
(over the mojibake literals). -/
def heurSkinTone (s : String) : Bool :=
  hasSubstr s.data waveEmoji.data ∧ SKIN_TONES.any fun t => hasSubstr s.data t.data

/-- `/^[.\-\s/]+$/ && includes('.') && (includes('-') || includes('/'))`. -/
def heurMorse (s : String) : Bool :=
  s.data ≠ [] ∧ s.data.all (fun c => c = '.' ∨ c = '-' ∨ c = '/' ∨ isJsSpace c) ∧
    s.data.contains '.' ∧ (s.data.contains '-' ∨ s.data.contains '/')

/-- `/^[AB\s]+$/i && input.replace(/\s/g, '').length % 5 === 0`. -/
def heurBacon (s : String) : Bool :=
  s.data ≠ [] ∧
    s.data.all (fun c => c = 'A' ∨ c = 'B' ∨ c = 'a' ∨ c = 'b' ∨ isJsSpace c) ∧
    (s.data.filter fun c => ¬ isJsSpace c).length % 5 = 0

/-- Two adjacent characters both in `1..5` (`/[1-5]{2}/`). -/
def twoConsec15 : List Char → Bool
  | a :: b :: rest =>
    (decide ('1' ≤ a ∧ a ≤ '5') && decide ('1' ≤ b ∧ b ≤ '5')) || twoConsec15 (b :: rest)
  | _ => false

/-- `/^[\d\s]+$/ && /[1-5]{2}/`. -/
def heurPolybius (s : String) : Bool :=
  s.data ≠ [] ∧ s.data.all (fun c => isAsciiDigit c ∨ isJsSpace c) ∧
    twoConsec15 s.data

/-- `/^[A-Za-z\s]+$/ && 10 ≤ input.length ≤ 500`. -/
def heurBruteforce (s : String) : Bool :=
  s.data ≠ [] ∧ s.data.all (fun c => isAsciiLetter c ∨ isJsSpace c) ∧
    10 ≤ jsLength s ∧ jsLength s ≤ 500

/-- The ordered candidate ids pushed by `detectPossibleEncodings`
(`jwt-decode` is pushed by the JWT heuristic although no such entry is
registered; the zero-width heuristic pushes two ids). -/
def detectionCandidateIds (input : String) : List String :=
  (if heurJwt input then ["jwt-decode"] else []) ++
  (if heurBase64 input then ["base64"] else []) ++
  (if heurBase32 input then ["base32"] else []) ++
  (if heurBase58 input then ["base58"] else []) ++
  (if heurBase85 input then ["base85"] else []) ++
  (if heurHex input then ["hex"] else []) ++
  (if heurBinary input then ["binary"] else []) ++
  (if heurUrl input.data then ["url"] else []) ++
  (if heurHtmlEntity input.data then ["html-entity"] else []) ++
  (if heurUnicodeEsc input.data then ["unicode-escape"] else []) ++
  (if heurBraille input then ["braille"] else []) ++
  (if heurZeroWidth input then ["zerowidth-decode", "zerowidth-reveal"] else []) ++
  (if heurBinaryEmoji input then ["binary-emoji"] else []) ++
  (if heurEmojiAlphabet input then ["emoji-alphabet"] else []) ++
  (if heurPunctuation input then ["punctuation"] else []) ++
  (if heurWhitespace input then ["whitespace"] else []) ++
  (if heurSkinTone input then ["emoji-skintone"] else []) ++
  (if heurMorse input then ["morse"] else []) ++
  (if heurBacon input then ["bacon"] else []) ++
  (if heurPolybius input then ["polybius"] else []) ++
  (if heurBruteforce input then ["bruteforce-caesar"] else [])

/-- `detectPossibleEncodings`: push `transformations.find(t => t.id === id)!`
per matched heuristic, then `.filter(Boolean)` — i.e. resolve each candidate
id in the registry and drop the unresolvable ones. -/
def detectPossibleEncodings (input : String) : List Transformation :=
  (detectionCandidateIds input).filterMap fun i =>
    transformations.find? fun t => t.id == i

/-- The `while (depth < maxDepth)` loop of `detectMultiLayer`, returning
the layer lines and the final decoded value. -/
def detectMultiLayerGo : Nat → Nat → String → List String × String
  | 0, _, current => ([], current)
  | fuel + 1, depth, current =>
    match detectPossibleEncodings current with
    | [] => ([], current)
    | firstMatch :: _ =>
      match firstMatch.decode with
      | none => ([], current)
      | some f =>
        match f current none with
        | .error _ => ([], current)
        | .ok decoded =>
          if decoded = current ∨ jsLength decoded = 0 then ([], current)
          else
            let rest := detectMultiLayerGo fuel (depth + 1) decoded
            (("Layer " ++ natToString (depth + 1) ++ ": " ++ firstMatch.name) :: rest.1,
              rest.2)

/-- `detectMultiLayer(input, maxDepth = 3)`: peel layers with the first
detected candidate's decoder, then append a truncated `Final:` line when at
least one layer was decoded. -/
def detectMultiLayer (input : String) (maxDepth : Nat := 3) : List String :=
  let r := detectMultiLayerGo maxDepth 0 input
  if r.1.isEmpty then []
  else r.1 ++ ["Final: " ++ (⟨jsSliceTake 100 r.2.data⟩ : String) ++
    (if jsLength r.2 > 100 then "..." else "")]

-- engine sanity checks
example : executePipeline "SECRET" [] = ([], "SECRET") := rfl
example : detectionCandidateIds "00" = ["hex", "binary"] := by decide
example : detectionCandidateIds "Wlc1aw==" = ["base64"] := by decide
example : detectionCandidateIds "end" = ["base32", "base58"] := by decide

/-! ## Shared helper notions and lemmas for the claim theorems -/

/-- The "last successfully advanced value" of a result list: the output of
the last successful result, or the default (original input) if none. -/
def lastSuccessOutput (dflt : String) (rs : List PipelineResult) : String :=
  rs.foldl (fun acc r => if r.success then r.output else acc) dflt

/-- `executePipeline`'s final output is always the last successfully
advanced value (the original input when no step ever succeeded). -/
theorem executePipeline_finalOutput (input : String) (steps : List PipelineStep) :
    (executePipeline input steps).2 =
      lastSuccessOutput input (executePipeline input steps).1 := by
  induction steps generalizing input with
  | nil => rfl
  | cons step rest ih =>
    unfold executePipeline executePipelineGo
    cases h : getTransformation step.transformationId with
    | none => simpa [lastSuccessOutput] using ih input
    | some t =>
      cases hf : (match step.mode with | .encode => t.encode | .decode => t.decode) with
      | none => simpa [lastSuccessOutput, hf] using ih input
      | some f =>
        cases hr : f input step.options with
        | ok output => simpa [lastSuccessOutput, hf, hr] using ih output
        | error e => simpa [lastSuccessOutput, hf, hr] using ih input

/-- The uppercase letters of the Polybius grid (A–Z without J): the
cipher's valid domain per §4.1 of the specification (the grid merges I and
J and the encoder upper-cases first). -/
def polybiusLetters : List Char := "ABCDEFGHIKLMNOPQRSTUVWXYZ".data

/-- Executable per-character round-trip check for the Polybius square. -/
def polybiusCharOk (c : Char) : Bool :=
  match polybiusTok c with
  | [d1, d2] => isAsciiDigit d1 && isAsciiDigit d2 && (polybiusCell (d1, d2) == c) &&
      (jsToUpperChar c == c) && (c != 'J')
  | _ => false

theorem polybiusLetters_ok : ∀ c ∈ polybiusLetters, polybiusCharOk c = true := by decide

theorem polybiusTok_spec (c : Char) (hc : polybiusCharOk c = true) :
    ∃ d1 d2, polybiusTok c = [d1, d2] ∧ isAsciiDigit d1 = true ∧ isAsciiDigit d2 = true ∧
      polybiusCell (d1, d2) = c ∧ jsToUpperChar c = c ∧ c ≠ 'J' := by
  unfold polybiusCharOk at hc
  rcases htok : polybiusTok c with _ | ⟨d1, _ | ⟨d2, _ | _⟩⟩ <;> rw [htok] at hc
  · exact absurd hc (by simp)
  · exact absurd hc (by simp)
  · simp only [Bool.and_eq_true, beq_iff_eq, bne_iff_ne] at hc
    exact ⟨d1, d2, rfl, hc.1.1.1.1, hc.1.1.1.2, hc.1.1.2, hc.1.2, hc.2⟩
  · exact absurd hc (by simp)

theorem digitPairs_pair (fuel : Nat) (d1 d2 : Char) (rest : List Char)
    (h1 : isAsciiDigit d1 = true) (h2 : isAsciiDigit d2 = true) :
    digitPairs (fuel + 1) (d1 :: d2 :: rest) = (d1, d2) :: digitPairs fuel rest := by
  simp [digitPairs, h1, h2]

theorem digitPairs_space (fuel : Nat) (rest : List Char) :
    digitPairs (fuel + 1) (' ' :: rest) = digitPairs fuel rest := by
  simp [digitPairs, isAsciiDigit]

theorem digitPairs_nil (fuel : Nat) : digitPairs fuel [] = [] := by
  cases fuel <;> rfl

/-- `/\d{2}/g` applied to space-joined two-digit tokens recovers exactly
the token pairs (given enough fuel). -/
theorem digitPairs_join (toks : List (List Char))
    (h : ∀ t ∈ toks, ∃ d1 d2, t = [d1, d2] ∧ isAsciiDigit d1 = true ∧ isAsciiDigit d2 = true) :
    ∀ fuel, 3 * toks.length ≤ fuel + 1 →
      digitPairs fuel (joinWithSpace toks) =
        toks.map fun t => (t.getD 0 ' ', t.getD 1 ' ') := by
  induction toks with
  | nil => intro fuel _; exact digitPairs_nil fuel
  | cons t rest ih =>
    intro fuel hfuel
    obtain ⟨d1, d2, rfl, hd1, hd2⟩ := h _ (List.mem_cons_self _ _)
    cases rest with
    | nil =>
      obtain ⟨f, rfl⟩ : ∃ f, fuel = f + 2 := ⟨fuel - 2, by simp at hfuel; omega⟩
      rw [show joinWithSpace [[d1, d2]] = [d1, d2] from rfl]
      rw [show f + 2 = (f + 1) + 1 from rfl, digitPairs_pair _ _ _ _ hd1 hd2]
      simp [digitPairs_nil]
    | cons t2 rest2 =>
      obtain ⟨f, rfl⟩ : ∃ f, fuel = f + 3 := ⟨fuel - 3, by simp at hfuel; omega⟩
      rw [show joinWithSpace ([d1, d2] :: t2 :: rest2) =
          d1 :: d2 :: ' ' :: joinWithSpace (t2 :: rest2) from rfl]
      rw [show f + 3 = (f + 2) + 1 from rfl, digitPairs_pair _ _ _ _ hd1 hd2,
        digitPairs_space]
      rw [ih (fun u hu => h u (List.mem_cons_of_mem _ hu)) (f + 1)
        (by simp at hfuel ⊢; omega)]
      simp

theorem map_id_on {α : Type} (f : α → α) (l : List α) (h : ∀ c ∈ l, f c = c) :
    l.map f = l := by
  induction l with
  | nil => rfl
  | cons a t ih =>
    simp [h a (List.mem_cons_self a t), ih fun c hc => h c (List.mem_cons_of_mem a hc)]

theorem joinWithSpace_len (toks : List (List Char)) (h : ∀ t ∈ toks, t.length = 2) :
    3 * toks.length ≤ (joinWithSpace toks).length + 1 := by
  induction toks with
  | nil => decide
  | cons t rest ih =>
    cases rest with
    | nil =>
      rw [show joinWithSpace [t] = t from rfl]
      simp [h t (List.mem_cons_self _ _)]
    | cons t2 rest2 =>
      rw [show joinWithSpace (t :: t2 :: rest2) = t ++ ' ' :: joinWithSpace (t2 :: rest2)
        from rfl]
      have := ih fun u hu => h u (List.mem_cons_of_mem _ hu)
      simp [List.length_append, h t (List.mem_cons_self _ _)] at this ⊢
      omega

/-- Round trip of the Polybius square over its grid letters. -/
theorem polybius_roundTrip_aux (s : String) (h : ∀ c ∈ s.data, c ∈ polybiusLetters) :
    polybiusDecode (polybiusEncode s) = s := by
  obtain ⟨data⟩ := s
  have hok : ∀ c ∈ data, polybiusCharOk c = true := fun c hc =>
    polybiusLetters_ok c (h c hc)
  have hpre : ((jsToUpper ⟨data⟩).data.map fun c => if c = 'J' then 'I' else c) = data := by
    show ((data.map jsToUpperChar).map fun c => if c = 'J' then 'I' else c) = data
    rw [List.map_map]
    exact map_id_on _ data fun c hc => by
      obtain ⟨_, _, _, _, _, _, hup, hnj⟩ := polybiusTok_spec c (hok c hc)
      simp [Function.comp, hup, hnj]
  have htokspec : ∀ t ∈ data.map polybiusTok,
      ∃ d1 d2, t = [d1, d2] ∧ isAsciiDigit d1 = true ∧ isAsciiDigit d2 = true := by
    intro t ht
    obtain ⟨c, hc, rfl⟩ := List.mem_map.mp ht
    obtain ⟨d1, d2, htok, hd1, hd2, _, _, _⟩ := polybiusTok_spec c (hok c hc)
    exact ⟨d1, d2, htok, hd1, hd2⟩
  show polybiusDecode ⟨joinWithSpace ((((jsToUpper ⟨data⟩).data.map
      fun c => if c = 'J' then 'I' else c)).map polybiusTok)⟩ = ⟨data⟩
  rw [hpre]
  unfold polybiusDecode
  rw [digitPairs_join (data.map polybiusTok) htokspec _
    (joinWithSpace_len _ (fun t ht => by
      obtain ⟨d1, d2, rfl, _, _⟩ := htokspec t ht; rfl))]
  rw [List.map_map, List.map_map]
  exact congrArg String.mk (map_id_on _ data fun c hc => by
    obtain ⟨d1, d2, htok, hd1, hd2, hcell, _, _⟩ := polybiusTok_spec c (hok c hc)
    show polybiusCell ((polybiusTok c).getD 0 ' ', (polybiusTok c).getD 1 ' ') = c
    rw [htok]
    exact hcell)
example : base32Decode "NBUQ====" = "hi" := by decide
example : base32Decode "end" = "#" := by decide
example : base58Encode "hi" = "8wr" := by decide
example : base58Decode "8wr" = .ok "hi" := rfl
example : hexEncode "hi" = "6869" := by decide
example : hexDecode "6869" = "hi" := by decide
example : binaryEncode "hi" none = "01101000 01101001" := by decide
example : binaryDecode "01101000 01101001" = "hi" := by decide
example : base85Encode "hi" = "<~BP@~>" := by decide
example : base85Decode "<~BP@~>" = "hi" := by decide

/-! # Claim theorems -/

/-- C1: `executePipeline` processes steps strictly in order; a step whose
`transformationId` has no registry entry yields a failed result with error
"Transformation not found" whose output equals its input, the threaded
current value does not advance past that step, every remaining step is
still processed on the last successfully-advanced value, and `finalOutput`
equals the last successfully advanced value (the original input if no step
ever succeeded); in particular, on input "hi" with steps
`[{base64, encode}, {unknown-id, encode}]` the first result is a success
whose output is the Base64 encoding of "hi", the second is the named
failure, and `finalOutput` is the Base64 encoding of "hi". -/
theorem executePipeline_unknown_id_policy :
    (∀ (input : String) (step : PipelineStep) (rest : List PipelineStep),
        getTransformation step.transformationId = none →
        executePipeline input (step :: rest) =
          (⟨step.id, input, input, false, some "Transformation not found"⟩ ::
              (executePipeline input rest).1,
            (executePipeline input rest).2)) ∧
    (∀ (input : String) (steps : List PipelineStep),
        (executePipeline input steps).2 =
          lastSuccessOutput input (executePipeline input steps).1) ∧
    executePipeline "hi"
        [⟨"s1", "base64", .encode, none⟩, ⟨"s2", "unknown-id", .encode, none⟩] =
      ([⟨"s1", "hi", "aGk=", true, none⟩,
        ⟨"s2", "aGk=", "aGk=", false, some "Transformation not found"⟩], "aGk=") :=
  ⟨fun input step rest h => by simp [executePipeline, executePipelineGo, h],
   executePipeline_finalOutput,
   by decide⟩

theorem executePipeline_unknown_id_policy_witness :
    getTransformation "unknown-id" = none ∧
    executePipeline "x" [⟨"s2", "unknown-id", Mode.encode, none⟩] =
      ([⟨"s2", "x", "x", false, some "Transformation not found"⟩], "x") :=
  ⟨rfl,
   (executePipeline_unknown_id_policy.1 "x" ⟨"s2", "unknown-id", Mode.encode, none⟩
      [] rfl).trans rfl⟩

/-- C2 (counterexample): the `emoji-skintone` registry entry is marked
reversible and carries both operations, yet `decode (encode "a") ≠ "a"` —
the encoder compresses each byte to `(⌊b/32⌋ % 5, b % 5)`, and the decoder
compares single characters against the stored multi-character wave-emoji
literal, so the round-trip law fails on the plain letter "a". -/
theorem emojiSkinTone_roundTrip_fails :
    getTransformation "emoji-skintone" = some tEmojiSkintone ∧
    tEmojiSkintone.reversibility = Reversibility.reversible ∧
    tEmojiSkintone.encode = some (pureOp emojiSkinToneEncode) ∧
    tEmojiSkintone.decode = some (pureOp emojiSkinToneDecode) ∧
    emojiSkinToneDecode (emojiSkinToneEncode "a") ≠ "a" :=
  ⟨rfl, rfl, rfl, rfl, by decide⟩

/-- C2 (amended): the round-trip law `decode (encode s) = s` does not hold
for every reversible two-operation registry entry (emoji-skintone violates
it at "a"), but it does hold for the registry's `polybius` transformation
on every string over its valid domain, the grid letters A–Z without J. -/
theorem polybius_roundTrip_on_grid_letters (s : String)
    (h : ∀ c ∈ s.data, c ∈ polybiusLetters) :
    getTransformation "polybius" = some tPolybius ∧
    tPolybius.reversibility = Reversibility.reversible ∧
    tPolybius.encode = some (pureOp polybiusEncode) ∧
    tPolybius.decode = some (pureOp polybiusDecode) ∧
    polybiusDecode (polybiusEncode s) = s :=
  ⟨rfl, rfl, rfl, rfl, polybius_roundTrip_aux s h⟩

theorem polybius_roundTrip_on_grid_letters_witness :
    ("HELLO".data.all fun c => polybiusLetters.contains c) = true ∧
    polybiusDecode (polybiusEncode "HELLO") = "HELLO" :=
  ⟨by decide, (polybius_roundTrip_on_grid_letters "HELLO" (by decide)).2.2.2.2⟩

/-- C3: the registry's `sha256` encode is the synchronous rolling-hash
placeholder, not a standards-conformant SHA-256: on the empty string it
yields sixty-four `'0'` characters, not the SHA-256 digest
`e3b0c442…b855` of the empty message. -/
theorem sha256Encode_placeholder_empty :
    tSha256.encode = some (pureOp sha256Encode) ∧
    sha256Encode "" =
      "0000000000000000000000000000000000000000000000000000000000000000" ∧
    sha256Encode "" ≠
      "e3b0c44298fc1c149afbf4c8996fb92427ae41e4649b934ca495991b7852b855" :=
  ⟨rfl, by decide, by decide⟩

/-- C4 (counterexample): on the Base64-of-Base64 encoding of "end"
(`"Wlc1aw=="`), `detectMultiLayer` with `maxDepth = 3` does not return two
layer entries plus a final entry containing "end": it returns four entries,
and the final entry does not contain "end". -/
theorem detectMultiLayer_base64_twice_not_two_layers :
    (detectMultiLayer (base64Encode (base64Encode "end")) 3).length = 4 ∧
    hasSubstr ((detectMultiLayer (base64Encode (base64Encode "end")) 3).getD 3 "").data
        "end".data = false :=
  ⟨by decide, by decide⟩

/-- C4 (amended): on `"Wlc1aw=="` (the Base64-of-Base64 encoding of "end")
with `maxDepth = 3`, `detectMultiLayer` returns three layer entries — two
Base64 layers and then a Base32 layer, because the decoded plain text
"end" itself matches the Base32 heuristic — plus a final entry `"Final: #"`
(the Base32 decoding of "end"), which does not contain "end". -/
theorem detectMultiLayer_base64_twice_three_layers :
    base64Encode (base64Encode "end") = "Wlc1aw==" ∧
    detectMultiLayer "Wlc1aw==" 3 =
      ["Layer 1: Base64", "Layer 2: Base64", "Layer 3: Base32", "Final: #"] :=
  ⟨by decide, by decide⟩

/-- C5: `analyzePipeline` on a single `{sha256, encode}` step (any step id,
any options) returns exactly two warnings, both of type `irreversible` —
the generic reversibility warning and the hash-specific warning, with
distinct messages — each listing exactly that step's id. -/
theorem analyzePipeline_sha256_step_warnings :
    (∀ (sid : String) (opts : Option Options),
        analyzePipeline [⟨sid, "sha256", Mode.encode, opts⟩] =
          [⟨"irreversible", msgIrreversible, [sid]⟩,
           ⟨"irreversible", msgHashDetected, [sid]⟩]) ∧
    msgIrreversible ≠ msgHashDetected :=
  ⟨fun sid opts => rfl, by decide⟩

theorem analyzePipeline_sha256_step_warnings_witness :
    analyzePipeline [⟨"s1", "sha256", Mode.encode, none⟩] =
      [⟨"irreversible", msgIrreversible, ["s1"]⟩,
       ⟨"irreversible", msgHashDetected, ["s1"]⟩] :=
  analyzePipeline_sha256_step_warnings.1 "s1" none

/-- C6: the registry's `md5` encode applied to the empty string returns
exactly `d41d8cd98f00b204e9800998ecf8427e`. -/
theorem md5Encode_empty_string :
    tMd5.encode = some (pureOp md5Encode) ∧
    md5Encode "" = "d41d8cd98f00b204e9800998ecf8427e" :=
  ⟨rfl, by decide⟩

/-- C7: whenever a step list contains both a step resolving to a
transformation whose id is in the fixed hash set (in any mode) and a step
resolving to a `Base Encoding`-category transformation used in encode mode,
`analyzePipeline` emits a `chain-risk` warning whose `stepIds` is the list
of all step ids of the pipeline. -/
theorem analyzePipeline_hash_encoding_chain_risk (steps : List PipelineStep)
    (h1 : ∃ s ∈ steps, hashTransformIds.contains
        (((getTransformation s.transformationId).map (fun t => t.id)).getD "") = true)
    (h2 : ∃ s ∈ steps, (match getTransformation s.transformationId with
        | some t => t.category == "Base Encoding" && s.mode == Mode.encode
        | none => false) = true) :
    (⟨"chain-risk", msgChainRisk, steps.map (fun s => s.id)⟩ : PipelineWarning) ∈
      analyzePipeline steps := by
  have hb1 : (steps.any fun s => hashTransformIds.contains
      (((getTransformation s.transformationId).map (fun t => t.id)).getD "")) = true :=
    List.any_eq_true.mpr h1
  have hb2 : (steps.any fun s =>
      match getTransformation s.transformationId with
      | some t => t.category == "Base Encoding" && s.mode == Mode.encode
      | none => false) = true :=
    List.any_eq_true.mpr h2
  unfold analyzePipeline
  simp only [hb1, hb2, Bool.and_self, if_true, if_pos]
  apply List.mem_append_left
  apply List.mem_append_right
  exact List.mem_cons_self _ _

theorem analyzePipeline_hash_encoding_chain_risk_witness :
    (⟨"chain-risk", msgChainRisk, ["s1", "s2"]⟩ : PipelineWarning) ∈
      analyzePipeline
        [⟨"s1", "md5", Mode.encode, none⟩, ⟨"s2", "base64", Mode.encode, none⟩] :=
  analyzePipeline_hash_encoding_chain_risk
    [⟨"s1", "md5", Mode.encode, none⟩, ⟨"s2", "base64", Mode.encode, none⟩]
    ⟨⟨"s1", "md5", Mode.encode, none⟩, List.mem_cons_self _ _, by decide⟩
    ⟨⟨"s2", "base64", Mode.encode, none⟩,
      List.mem_cons_of_mem _ (List.mem_cons_self _ _), by decide⟩

/-- C8: `executePipeline` on the empty step list returns an empty results
list and the input unchanged as `finalOutput`; in particular
`executePipeline "SECRET" []` returns `([], "SECRET")`. -/
theorem executePipeline_empty_steps (input : String) :
    executePipeline input [] = ([], input) := rfl

theorem executePipeline_empty_steps_witness :
    executePipeline "SECRET" [] = ([], "SECRET") :=
  executePipeline_empty_steps "SECRET"

/-- C9: every descriptor of the static catalog satisfies the capability
invariant — a false `canEncode` implies the encode operation is absent, and
a false `canDecode` implies the decode operation is absent. -/
theorem transformations_capability_invariant :
    ∀ t ∈ transformations,
      (t.canEncode = false → t.encode.isSome = false) ∧
      (t.canDecode = false → t.decode.isSome = false) := by
  decide

theorem transformations_capability_invariant_witness :
    tZerowidthDecode.canEncode = false ∧ tZerowidthDecode.encode.isSome = false :=
  ⟨rfl, (transformations_capability_invariant tZerowidthDecode (by
      repeat first
        | exact List.mem_cons_self _ _
        | apply List.mem_cons_of_mem)).1 rfl⟩

/-- C10: every element returned by `detectPossibleEncodings` is a
descriptor present in the registry — heuristic candidates that are not
registered, in particular the JWT heuristic's `jwt-decode` id, are dropped
by the trailing `.filter(Boolean)` — and `jwt-decode` is indeed never
registered. -/
theorem detectPossibleEncodings_subset_registry :
    (∀ (s : String) (t : Transformation),
        t ∈ detectPossibleEncodings s → t ∈ transformations) ∧
    transformations.find? (fun t => t.id == "jwt-decode") = none :=
  ⟨fun s t h => by
    unfold detectPossibleEncodings at h
    obtain ⟨i, _, hfind⟩ := List.mem_filterMap.mp h
    exact List.mem_of_find?_eq_some hfind,
   rfl⟩

theorem detectPossibleEncodings_subset_registry_witness :
    tHex ∈ detectPossibleEncodings "00" ∧ tHex ∈ transformations :=
  ⟨List.mem_cons_self tHex [tBinary],
   detectPossibleEncodings_subset_registry.1 "00" tHex
     (List.mem_cons_self tHex [tBinary])⟩

end RedConverter
